import Mathlib

/-!
Verification of the HR Assistance Bot resume pipeline (src/main.py).

The development shallowly embeds the pipeline functions of main.py:
`process_uploaded_files`, `standardize_resumes`, `validate_and_reprocess_resumes`,
`upload_to_mongodb`, `convert_objectid_to_str`, and the JSON download payloads
built with json.dumps.

Modelling conventions:
- Python JSON-like values are the mutual inductive type PyVal / PyList / PyDict.
  PyDict is an insertion-ordered association list, matching Python dict semantics
  (assignment updates in place, otherwise appends).
- Directories (temp, parsed, standardized) are association lists from file name
  to file content; a Path value is represented by the file name, since each kind
  of artifact lives in a single fixed directory in main.py.
- Opaque collaborators (llama parser, OCR parser, the Azure LLM backend, the
  Mongo store) are oracle fields of environment structures, as the spec treats
  them as external boundaries. A raised Python exception is an Except.error.
- Streamlit presentation calls (st.error / st.warning / st.success / st.write /
  status_text) are modelled as an append-only event trace, since the claims are
  about which errors get reported; progress bars and the session completion
  flags are presentation-only and omitted.
-/

namespace HRBot

-- Python values as they occur in this pipeline: JSON scalars, lists, dicts,
-- and bson ObjectId (matched by type name in convert_objectid_to_str).
mutual

inductive PyVal where
  | pynull : PyVal
  | pybool : Bool → PyVal
  | pyint : Int → PyVal
  | pystr : String → PyVal
  | objectId : String → PyVal
  | pylist : PyList → PyVal
  | pydict : PyDict → PyVal

inductive PyList where
  | nil : PyList
  | cons : PyVal → PyList → PyList

inductive PyDict where
  | nil : PyDict
  | cons : String → PyVal → PyDict → PyDict

end

/-- Dict lookup, `d.get(k)`: first (unique) matching key. -/
def PyDict.get? : PyDict → String → Option PyVal
  | .nil, _ => none
  | .cons k v rest, key => if k = key then some v else PyDict.get? rest key

/-- Python dict assignment `d[k] = v`: update in place if the key exists,
otherwise append, preserving insertion order. -/
def PyDict.set : PyDict → String → PyVal → PyDict
  | .nil, k, v => .cons k v .nil
  | .cons k' v' rest, k, v =>
      if k' = k then .cons k v rest else .cons k' v' (PyDict.set rest k v)

/-- The ordered key list of a dict. -/
def PyDict.keys : PyDict → List String
  | .nil => []
  | .cons k _ rest => k :: PyDict.keys rest

def PyList.length : PyList → Nat
  | .nil => 0
  | .cons _ rest => PyList.length rest + 1

/- src/main.py lines 266-276 (and the identical copy at lines 957-965):

    def convert_objectid_to_str(obj):
        if isinstance(obj, dict):
            return {k: convert_objectid_to_str(v) for k, v in obj.items()}
        elif isinstance(obj, list):
            return [convert_objectid_to_str(i) for i in obj]
        elif type(obj).__name__ == "ObjectId":
            return str(obj)
        else:
            return obj

   embedded below as a mutual recursion over PyVal / PyList / PyDict. -/
mutual

def convert_objectid_to_str : PyVal → PyVal
  | .pydict kvs => .pydict (convertObjDict kvs)
  | .pylist xs => .pylist (convertObjList xs)
  | .objectId s => .pystr s
  | .pynull => .pynull
  | .pybool b => .pybool b
  | .pyint n => .pyint n
  | .pystr s => .pystr s

def convertObjList : PyList → PyList
  | .nil => .nil
  | .cons x xs => .cons (convert_objectid_to_str x) (convertObjList xs)

def convertObjDict : PyDict → PyDict
  | .nil => .nil
  | .cons k v rest => .cons k (convert_objectid_to_str v) (convertObjDict rest)

end

-- A value containing no ObjectId anywhere.
mutual

def noObjectId : PyVal → Bool
  | .pydict kvs => noObjectIdDict kvs
  | .pylist xs => noObjectIdList xs
  | .objectId _ => false
  | .pynull => true
  | .pybool _ => true
  | .pyint _ => true
  | .pystr _ => true

def noObjectIdList : PyList → Bool
  | .nil => true
  | .cons x xs => noObjectId x && noObjectIdList xs

def noObjectIdDict : PyDict → Bool
  | .nil => true
  | .cons _ v rest => noObjectId v && noObjectIdDict rest

end

mutual

theorem convert_objectid_idem : ∀ v, convert_objectid_to_str (convert_objectid_to_str v) =
    convert_objectid_to_str v
  | .pydict kvs => congrArg PyVal.pydict (convertObjDict_idem kvs)
  | .pylist xs => congrArg PyVal.pylist (convertObjList_idem xs)
  | .objectId _ => rfl
  | .pynull => rfl
  | .pybool _ => rfl
  | .pyint _ => rfl
  | .pystr _ => rfl

theorem convertObjList_idem : ∀ xs, convertObjList (convertObjList xs) = convertObjList xs
  | .nil => rfl
  | .cons x xs => by
    rw [convertObjList, convertObjList, convert_objectid_idem x, convertObjList_idem xs]

theorem convertObjDict_idem : ∀ kvs, convertObjDict (convertObjDict kvs) = convertObjDict kvs
  | .nil => rfl
  | .cons k v rest => by
    rw [convertObjDict, convertObjDict, convert_objectid_idem v, convertObjDict_idem rest]

end

mutual

theorem convert_objectid_id_of_clean : ∀ v, noObjectId v = true → convert_objectid_to_str v = v
  | .pydict kvs, h => congrArg PyVal.pydict (convertObjDict_id_of_clean kvs h)
  | .pylist xs, h => congrArg PyVal.pylist (convertObjList_id_of_clean xs h)
  | .pynull, _ => rfl
  | .pybool _, _ => rfl
  | .pyint _, _ => rfl
  | .pystr _, _ => rfl

theorem convertObjList_id_of_clean : ∀ xs, noObjectIdList xs = true → convertObjList xs = xs
  | .nil, _ => rfl
  | .cons x xs, h => by
    rw [noObjectIdList, Bool.and_eq_true] at h
    rw [convertObjList, convert_objectid_id_of_clean x h.1, convertObjList_id_of_clean xs h.2]

theorem convertObjDict_id_of_clean : ∀ kvs, noObjectIdDict kvs = true → convertObjDict kvs = kvs
  | .nil, _ => rfl
  | .cons k v rest, h => by
    rw [noObjectIdDict, Bool.and_eq_true] at h
    rw [convertObjDict, convert_objectid_id_of_clean v h.1, convertObjDict_id_of_clean rest h.2]

end

theorem convertObjDict_keys : ∀ kvs, (convertObjDict kvs).keys = kvs.keys
  | .nil => rfl
  | .cons k v rest => by rw [convertObjDict, PyDict.keys, PyDict.keys, convertObjDict_keys rest]

theorem convertObjList_length : ∀ xs, (convertObjList xs).length = xs.length
  | .nil => rfl
  | .cons x xs => by
    rw [convertObjList, PyList.length, PyList.length, convertObjList_length xs]

/-!
Model of json.dumps (CPython json module) as used by main.py. The download
payloads are built with json.dumps(obj, indent=2), which leaves ensure_ascii
at its default True, while the on-disk artifact writes pass ensure_ascii=False.
With ensure_ascii=True every character outside 0x20..0x7e is escaped: the
common controls to two-character escapes, everything else (including all
non-ASCII) to backslash-u hex escapes, using a surrogate pair above 0xffff.
With ensure_ascii=False only the quote, the backslash and controls below 0x20
are escaped. An ObjectId is not JSON-serializable: dumps raises TypeError.
-/

/-- Decimal digit character, digit d for d in 0..9. -/
def decDigit (d : Nat) : Char :=
  match d with
  | 0 => Char.mk 48 (by decide)
  | 1 => Char.mk 49 (by decide)
  | 2 => Char.mk 50 (by decide)
  | 3 => Char.mk 51 (by decide)
  | 4 => Char.mk 52 (by decide)
  | 5 => Char.mk 53 (by decide)
  | 6 => Char.mk 54 (by decide)
  | 7 => Char.mk 55 (by decide)
  | 8 => Char.mk 56 (by decide)
  | _ => Char.mk 57 (by decide)

/-- Lowercase hex digit character for d in 0..15. -/
def hexDigit (d : Nat) : Char :=
  if d < 10 then decDigit d
  else match d with
  | 10 => Char.mk 97 (by decide)
  | 11 => Char.mk 98 (by decide)
  | 12 => Char.mk 99 (by decide)
  | 13 => Char.mk 100 (by decide)
  | 14 => Char.mk 101 (by decide)
  | _ => Char.mk 102 (by decide)

/-- Decimal digits of a natural number, most significant first; fuel-indexed so
that the definition is structural (fuel is an upper bound on the digit count). -/
def natDigitsAux : Nat → Nat → List Char
  | 0, _ => []
  | fuel + 1, n =>
      if n < 10 then [decDigit n] else natDigitsAux fuel (n / 10) ++ [decDigit (n % 10)]

def natDigits (n : Nat) : List Char := natDigitsAux (n + 1) n

/-- Python repr of an int, as emitted by json.dumps. -/
def intChars (n : Int) : List Char :=
  if n < 0 then Char.mk 45 (by decide) :: natDigits n.natAbs else natDigits n.toNat

/-- Four lowercase hex digits of a number below 0x10000. -/
def hex4 (n : Nat) : List Char :=
  [hexDigit (n / 4096 % 16), hexDigit (n / 256 % 16), hexDigit (n / 16 % 16), hexDigit (n % 16)]

/-- Backslash-u escape of one code point, using a UTF-16 surrogate pair above
0xffff, exactly as CPython json does. -/
def uEscape (n : Nat) : List Char :=
  if n < 65536 then ['\\', 'u'] ++ hex4 n
  else
    let m := n - 65536
    (['\\', 'u'] ++ hex4 (55296 + m / 1024)) ++ (['\\', 'u'] ++ hex4 (56320 + m % 1024))

/-- Escape of one character inside a JSON string literal; ea is ensure_ascii. -/
def escChar (ea : Bool) (c : Char) : List Char :=
  if c = '"' then ['\\', '"']
  else if c = '\\' then ['\\', '\\']
  else if c = '\n' then ['\\', 'n']
  else if c = '\t' then ['\\', 't']
  else if c = '\r' then ['\\', 'r']
  else if c.toNat = 8 then ['\\', 'b']
  else if c.toNat = 12 then ['\\', 'f']
  else if c.toNat < 32 then uEscape c.toNat
  else if ea && decide (126 < c.toNat) then uEscape c.toNat
  else [c]

def escCharsAux (ea : Bool) : List Char → List Char
  | [] => []
  | c :: cs => escChar ea c ++ escCharsAux ea cs

/-- JSON string literal for s, with surrounding quotes. -/
def encodeString (ea : Bool) (s : String) : List Char :=
  '"' :: escCharsAux ea s.data ++ ['"']

def spaces (n : Nat) : List Char := List.replicate n ' '

/-- Join pre-rendered items: each on its own line, indented by pad, separated
by commas, matching the json.dumps layout when indent is not None. -/
def joinIndented (pad : List Char) : List (List Char) → List Char
  | [] => []
  | [x] => pad ++ x
  | x :: y :: rest => pad ++ x ++ ',' :: '\n' :: joinIndented pad (y :: rest)

-- json.dumps(v, indent=ind) at nesting level lvl; ea is ensure_ascii.
-- Fails with TypeError on a value (such as ObjectId) that is not serializable.
mutual

def dumpsV (ea : Bool) (ind lvl : Nat) : PyVal → Except String (List Char)
  | .pynull => .ok ['n', 'u', 'l', 'l']
  | .pybool true => .ok ['t', 'r', 'u', 'e']
  | .pybool false => .ok ['f', 'a', 'l', 's', 'e']
  | .pyint n => .ok (intChars n)
  | .pystr s => .ok (encodeString ea s)
  | .objectId _ => .error "TypeError: Object of type ObjectId is not JSON serializable"
  | .pylist .nil => .ok ['\x5b', '\x5d']
  | .pylist (.cons x xs) =>
      match dumpsItems ea ind (lvl + 1) (.cons x xs) with
      | .error e => .error e
      | .ok its =>
          .ok ('\x5b' :: '\n' :: joinIndented (spaces (ind * (lvl + 1))) its ++
            '\n' :: spaces (ind * lvl) ++ ['\x5d'])
  | .pydict .nil => .ok ['\x7b', '\x7d']
  | .pydict (.cons k v kvs) =>
      match dumpsPairs ea ind (lvl + 1) (.cons k v kvs) with
      | .error e => .error e
      | .ok its =>
          .ok ('\x7b' :: '\n' :: joinIndented (spaces (ind * (lvl + 1))) its ++
            '\n' :: spaces (ind * lvl) ++ ['\x7d'])

def dumpsItems (ea : Bool) (ind lvl : Nat) : PyList → Except String (List (List Char))
  | .nil => .ok []
  | .cons x xs =>
      match dumpsV ea ind lvl x with
      | .error e => .error e
      | .ok cx =>
          match dumpsItems ea ind lvl xs with
          | .error e => .error e
          | .ok rest => .ok (cx :: rest)

def dumpsPairs (ea : Bool) (ind lvl : Nat) : PyDict → Except String (List (List Char))
  | .nil => .ok []
  | .cons k v kvs =>
      match dumpsV ea ind lvl v with
      | .error e => .error e
      | .ok cv =>
          match dumpsPairs ea ind lvl kvs with
          | .error e => .error e
          | .ok rest => .ok ((encodeString ea k ++ ':' :: ' ' :: cv) :: rest)

end

/-- json.dumps(v, indent=2) exactly as called for the retailored-resume
download payloads at src/main.py lines 459, 558 and 940: indent=2 and
ensure_ascii left at its default True. -/
def downloadPayload (v : PyVal) : Except String String :=
  (dumpsV true 2 0 v).map (fun cs => String.mk cs)

/-- A character list consisting of ASCII characters only. -/
def asciiL (cs : List Char) : Prop := ∀ c ∈ cs, c.toNat < 128

theorem asciiL_nil : asciiL [] := by
  intro c hc
  simp at hc

theorem asciiL_append_iff {a b : List Char} : asciiL (a ++ b) ↔ asciiL a ∧ asciiL b := by
  constructor
  · intro h
    exact ⟨fun c hc => h c (List.mem_append.mpr (Or.inl hc)),
           fun c hc => h c (List.mem_append.mpr (Or.inr hc))⟩
  · intro h c hc
    rcases List.mem_append.mp hc with h1 | h1
    · exact h.1 c h1
    · exact h.2 c h1

theorem asciiL_cons_iff {c : Char} {cs : List Char} :
    asciiL (c :: cs) ↔ c.toNat < 128 ∧ asciiL cs := by
  constructor
  · intro h
    exact ⟨h c (by simp), fun d hd => h d (List.mem_cons_of_mem c hd)⟩
  · intro h d hd
    rcases List.mem_cons.mp hd with rfl | hd
    · exact h.1
    · exact h.2 d hd

theorem asciiL_of_all (cs : List Char) (h : cs.all (fun c => decide (c.toNat < 128)) = true) :
    asciiL cs := by
  intro c hc
  have := List.all_eq_true.mp h c hc
  simpa using this

theorem decDigit_ascii (d : Nat) : (decDigit d).toNat < 128 := by
  unfold decDigit
  split <;> decide

theorem hexDigit_ascii (d : Nat) : (hexDigit d).toNat < 128 := by
  unfold hexDigit
  split
  · exact decDigit_ascii d
  · split <;> decide

theorem natDigitsAux_ascii (fuel n : Nat) : asciiL (natDigitsAux fuel n) := by
  induction fuel generalizing n with
  | zero => exact asciiL_nil
  | succ fuel ih =>
    rw [natDigitsAux]
    split
    · exact asciiL_cons_iff.mpr ⟨decDigit_ascii n, asciiL_nil⟩
    · exact asciiL_append_iff.mpr ⟨ih (n / 10),
        asciiL_cons_iff.mpr ⟨decDigit_ascii (n % 10), asciiL_nil⟩⟩

theorem intChars_ascii (n : Int) : asciiL (intChars n) := by
  unfold intChars natDigits
  split
  · exact asciiL_cons_iff.mpr ⟨by decide, natDigitsAux_ascii _ _⟩
  · exact natDigitsAux_ascii _ _

theorem hex4_ascii (n : Nat) : asciiL (hex4 n) := by
  intro c hc
  simp only [hex4, List.mem_cons, List.not_mem_nil, or_false] at hc
  rcases hc with rfl | rfl | rfl | rfl <;> exact hexDigit_ascii _

theorem uEscape_ascii (n : Nat) : asciiL (uEscape n) := by
  unfold uEscape
  split
  · exact asciiL_append_iff.mpr ⟨asciiL_of_all _ (by decide), hex4_ascii n⟩
  · exact asciiL_append_iff.mpr
      ⟨asciiL_append_iff.mpr ⟨asciiL_of_all _ (by decide), hex4_ascii _⟩,
       asciiL_append_iff.mpr ⟨asciiL_of_all _ (by decide), hex4_ascii _⟩⟩

theorem escChar_ascii (c : Char) : asciiL (escChar true c) := by
  unfold escChar
  split_ifs with h1 h2 h3 h4 h5 h6 h7 h8 h9
  all_goals first
    | exact uEscape_ascii _
    | exact asciiL_of_all _ (by decide)
    | (intro d hd
       rcases List.mem_singleton.mp hd with rfl
       simp only [Bool.true_and, decide_eq_true_eq, not_lt] at h9
       omega)

theorem escCharsAux_ascii (cs : List Char) : asciiL (escCharsAux true cs) := by
  induction cs with
  | nil => exact asciiL_nil
  | cons c cs ih =>
    rw [escCharsAux]
    exact asciiL_append_iff.mpr ⟨escChar_ascii c, ih⟩

theorem encodeString_ascii (s : String) : asciiL (encodeString true s) := by
  rw [encodeString]
  refine asciiL_cons_iff.mpr ⟨by decide, ?_⟩
  exact asciiL_append_iff.mpr ⟨escCharsAux_ascii s.data, asciiL_of_all _ (by decide)⟩

theorem spaces_ascii (n : Nat) : asciiL (spaces n) := by
  intro c hc
  rw [spaces] at hc
  rw [List.eq_of_mem_replicate hc]
  decide

theorem joinIndented_ascii (pad : List Char) (hpad : asciiL pad) :
    ∀ items : List (List Char), (∀ x ∈ items, asciiL x) → asciiL (joinIndented pad items)
  | [] => fun _ => by rw [joinIndented]; exact asciiL_nil
  | [x] => fun h => by
      rw [joinIndented]
      exact asciiL_append_iff.mpr ⟨hpad, h x (by simp)⟩
  | x :: y :: rest => fun h => by
      rw [joinIndented]
      have hrec := joinIndented_ascii pad hpad (y :: rest)
        (fun z hz => h z (List.mem_cons_of_mem x hz))
      have hx := h x (by simp)
      simp only [asciiL_append_iff, asciiL_cons_iff]
      repeat' apply And.intro
      all_goals first | exact hpad | exact hx | exact hrec | exact asciiL_nil | decide

mutual

theorem dumpsV_ascii : ∀ (ind lvl : Nat) (v : PyVal) (out : List Char),
    dumpsV true ind lvl v = .ok out → asciiL out
  | ind, lvl, .pynull, out, h => by
      rw [dumpsV] at h; cases h; exact asciiL_of_all _ (by decide)
  | ind, lvl, .pybool true, out, h => by
      rw [dumpsV] at h; cases h; exact asciiL_of_all _ (by decide)
  | ind, lvl, .pybool false, out, h => by
      rw [dumpsV] at h; cases h; exact asciiL_of_all _ (by decide)
  | ind, lvl, .pyint n, out, h => by
      rw [dumpsV] at h; cases h; exact intChars_ascii n
  | ind, lvl, .pystr s, out, h => by
      rw [dumpsV] at h; cases h; exact encodeString_ascii s
  | ind, lvl, .objectId s, out, h => by
      rw [dumpsV] at h; cases h
  | ind, lvl, .pylist .nil, out, h => by
      rw [dumpsV] at h; cases h; exact asciiL_of_all _ (by decide)
  | ind, lvl, .pylist (.cons x xs), out, h => by
      rw [dumpsV] at h
      cases hits : dumpsItems true ind (lvl + 1) (.cons x xs) with
      | error e => rw [hits] at h; cases h
      | ok its =>
        rw [hits] at h
        cases h
        have hasc := dumpsItems_ascii ind (lvl + 1) (.cons x xs) its hits
        have hjoin := joinIndented_ascii _ (spaces_ascii (ind * (lvl + 1))) its hasc
        simp only [asciiL_append_iff, asciiL_cons_iff]
        repeat' apply And.intro
        all_goals first
          | exact hjoin | exact spaces_ascii _ | exact asciiL_nil | decide
  | ind, lvl, .pydict .nil, out, h => by
      rw [dumpsV] at h; cases h; exact asciiL_of_all _ (by decide)
  | ind, lvl, .pydict (.cons k v kvs), out, h => by
      rw [dumpsV] at h
      cases hits : dumpsPairs true ind (lvl + 1) (.cons k v kvs) with
      | error e => rw [hits] at h; cases h
      | ok its =>
        rw [hits] at h
        cases h
        have hasc := dumpsPairs_ascii ind (lvl + 1) (.cons k v kvs) its hits
        have hjoin := joinIndented_ascii _ (spaces_ascii (ind * (lvl + 1))) its hasc
        simp only [asciiL_append_iff, asciiL_cons_iff]
        repeat' apply And.intro
        all_goals first
          | exact hjoin | exact spaces_ascii _ | exact asciiL_nil | decide

theorem dumpsItems_ascii : ∀ (ind lvl : Nat) (xs : PyList) (outs : List (List Char)),
    dumpsItems true ind lvl xs = .ok outs → ∀ x ∈ outs, asciiL x
  | ind, lvl, .nil, outs, h => by
      rw [dumpsItems] at h; cases h; intro x hx; simp at hx
  | ind, lvl, .cons x xs, outs, h => by
      rw [dumpsItems] at h
      cases hx : dumpsV true ind lvl x with
      | error e => rw [hx] at h; cases h
      | ok cx =>
        rw [hx] at h
        cases hrest : dumpsItems true ind lvl xs with
        | error e => rw [hrest] at h; cases h
        | ok rest =>
          rw [hrest] at h
          cases h
          intro y hy
          rcases List.mem_cons.mp hy with rfl | hmem
          · exact dumpsV_ascii ind lvl x y hx
          · exact dumpsItems_ascii ind lvl xs rest hrest y hmem

theorem dumpsPairs_ascii : ∀ (ind lvl : Nat) (kvs : PyDict) (outs : List (List Char)),
    dumpsPairs true ind lvl kvs = .ok outs → ∀ x ∈ outs, asciiL x
  | ind, lvl, .nil, outs, h => by
      rw [dumpsPairs] at h; cases h; intro x hx; simp at hx
  | ind, lvl, .cons k v kvs, outs, h => by
      rw [dumpsPairs] at h
      cases hv : dumpsV true ind lvl v with
      | error e => rw [hv] at h; cases h
      | ok cv =>
        rw [hv] at h
        cases hrest : dumpsPairs true ind lvl kvs with
        | error e => rw [hrest] at h; cases h
        | ok rest =>
          rw [hrest] at h
          cases h
          intro y hy
          rcases List.mem_cons.mp hy with rfl | hmem
          · have hval := dumpsV_ascii ind lvl v cv hv
            have hkey := encodeString_ascii k
            simp only [asciiL_append_iff, asciiL_cons_iff]
            repeat' apply And.intro
            all_goals first | exact hval | exact hkey | exact asciiL_nil | decide
          · exact dumpsPairs_ascii ind lvl kvs rest hrest y hmem

end

/-!
Python string and path helpers used by main.py: pathlib PurePath.stem and
PurePath.suffix, str.lower, str.strip, str.split with no argument, and Python
truthiness of a value as used by `if not x`.
-/

/-- Index of the last dot in the character list, name.rfind of the dot. -/
def lastDotIdx (cs : List Char) : Option Nat :=
  ((List.range cs.length).filter (fun i => cs.get? i = some '.')).getLast?

/-- pathlib PurePath.stem of a file name: the name with its suffix removed.
CPython: i = name.rfind of the dot; name[:i] when 0 < i < len(name) - 1. -/
def pyStem (s : String) : String :=
  match lastDotIdx s.data with
  | some i => if 0 < i ∧ i + 1 < s.data.length then String.mk (s.data.take i) else s
  | none => s

/-- pathlib PurePath.suffix of a file name: name[i:] when 0 < i < len(name) - 1. -/
def pySuffix (s : String) : String :=
  match lastDotIdx s.data with
  | some i => if 0 < i ∧ i + 1 < s.data.length then String.mk (s.data.drop i) else ""
  | none => ""

/-- str.lower, applied in main.py to a file extension. -/
def pyLower (s : String) : String := String.mk (s.data.map Char.toLower)

/-- str.strip with no argument: remove leading and trailing whitespace. -/
def pyStrip (s : String) : String :=
  String.mk (((s.data.dropWhile Char.isWhitespace).reverse.dropWhile Char.isWhitespace).reverse)

/-- str.split with no argument: split on whitespace runs, discarding empty
tokens, so the result never contains an empty string. -/
def pySplit (s : String) : List String :=
  ((s.data.splitOnP Char.isWhitespace).filter (fun t => t ≠ [])).map (fun cs => String.mk cs)

/-- Python truthiness of a value, as tested by `if not x`. -/
def pyTruthy : PyVal → Bool
  | .pynull => false
  | .pybool b => b
  | .pyint n => n != 0
  | .pystr s => s != ""
  | .objectId _ => true
  | .pylist .nil => false
  | .pylist (.cons _ _) => true
  | .pydict .nil => false
  | .pydict (.cons _ _ _) => true

/-- src/main.py line 326, the condition of validate_and_reprocess_resumes:

    if not resume_data.get("name") or len(resume_data.get("name").split()[0]) < 2:

Evaluated left to right with short-circuiting. Result .ok true means the
record is selected for reprocessing, .ok false means it passes. The check
itself can raise: split()[0] raises IndexError when the name is a non-empty
string of whitespace only (split() returns an empty list), and .split raises
AttributeError when the truthy name value is not a string. -/
def nameCheck (v : Option PyVal) : Except String Bool :=
  match v with
  | none => .ok true
  | some pv =>
    if !pyTruthy pv then .ok true
    else match pv with
      | .pystr s =>
        match pySplit s with
        | [] => .error "IndexError: list index out of range"
        | t :: _ => .ok (decide (t.length < 2))
      | _ => .error "AttributeError: split"

/-!
Observable trace of the pipeline. Streamlit st.warning / st.error / st.success
and the st.write / status_text summary lines are recorded as events; in
addition a backendCall event marks each call into the Azure LLM backend
(standardizer.call_azure_llm) and an ocrCall event marks each OCR re-parse
(ResumeParserwithOCR().parse_resume), tagged with the file being processed, so
that claims about redundant backend calls and repair-pass counts are statable.
-/

inductive Event where
  | warn : String → Event
  | errorMsg : String → Event
  | successMsg : String → Event
  | statusMsg : String → Event
  | backendCall : String → Event
  | ocrCall : String → Event
deriving Repr, DecidableEq

/-- Writing a file into a directory, modelled as an association list from file
name to content: overwrite the existing entry or append a new one. -/
def fsWrite {α : Type} : List (String × α) → String → α → List (String × α)
  | [], k, v => [(k, v)]
  | (k', v') :: rest, k, v =>
      if k' = k then (k, v) :: rest else (k', v') :: fsWrite rest k v

/-- Reading a file from a directory listing. -/
def fsRead {α : Type} : List (String × α) → String → Option α
  | [], _ => none
  | (k', v) :: rest, k => if k' = k then some v else fsRead rest k

/-!
Stage 1 - process_uploaded_files (src/main.py lines 135-186).

Uploaded files are represented by their names; the bytes are only passed to
the opaque parser. The parser (llama_resume_parser.ResumeParser) is an
external collaborator: parse_resume is an oracle from the file name to either
a raised exception (.error), a falsy result (.ok none, the "No content
extracted" case), or a parsed JSON dict. SUPPORTED_EXTENSIONS membership is
an oracle predicate on the lower-cased suffix. datetime.now().isoformat() is
the environment field now.
-/

structure ParseEnv where
  supported : String → Bool
  parse : String → Except String (Option PyDict)
  now : String

structure ParseState where
  parsedDir : List (String × PyDict)
  processedFiles : List String
  processedCount : Nat
  events : List Event

/-- One iteration of the loop of process_uploaded_files (lines 151-183):
save to temp, check the extension, parse, stamp timestamp and
original_filename, write the parsed JSON, append the output path, count. -/
def processOneFile (env : ParseEnv) (st : ParseState) (fileName : String) : ParseState :=
  let ext := pyLower (pySuffix fileName)
  if !env.supported ext then
    { st with events := st.events ++
        [.warn ("Skipping " ++ fileName ++ ": Unsupported file type " ++ ext)] }
  else
    match env.parse fileName with
    | .error e =>
        { st with events := st.events ++ [.errorMsg ("Error parsing " ++ fileName ++ ": " ++ e)] }
    | .ok none =>
        { st with events := st.events ++ [.warn ("No content extracted from " ++ fileName)] }
    | .ok (some parsed) =>
        let stamped := (parsed.set "timestamp" (.pystr env.now)).set "original_filename"
          (.pystr fileName)
        let outName := pyStem fileName ++ ".json"
        { st with
          parsedDir := fsWrite st.parsedDir outName stamped
          processedFiles := st.processedFiles ++ [outName]
          processedCount := st.processedCount + 1 }

/-- process_uploaded_files: the initial status line, the per-file loop, and the
final "Processed c/t files" summary. -/
def process_uploaded_files (env : ParseEnv) (files : List String) : ParseState :=
  let st0 : ParseState :=
    { parsedDir := []
      processedFiles := []
      processedCount := 0
      events := [.statusMsg ("Processing " ++ toString files.length ++ " files...")] }
  let st1 := files.foldl (processOneFile env) st0
  { st1 with events := st1.events ++
      [.statusMsg ("Processed " ++ toString st1.processedCount ++ "/" ++
        toString files.length ++ " files")] }

/-!
Stage 2 - standardize_resumes (src/main.py lines 188-264).

The standardizer (standardizer.ResumeStandardizer) is an external
collaborator: make_standardizer_prompt plus call_azure_llm is the llm oracle
from the extracted content and links to the raw response, and
clean_llm_response plus json.loads is the cleanParse oracle from the raw
response to the parsed JSON dict. A raised exception anywhere inside the
per-file try block is an .error. initOk models the ResumeStandardizer()
constructor, whose ValueError aborts the stage before any file is processed.
-/

structure StdEnv where
  llm : String → PyVal → Except String String
  cleanParse : String → Except String PyDict
  initOk : Bool
  now : String

structure StdState where
  standardizedDir : List (String × PyDict)
  rawLogs : List (String × String)
  standardizedFiles : List String
  standardizedCount : Nat
  events : List Event

/-- content = raw.get("content", ""), followed by content.strip() in the
guard: the default is the empty string; a non-string raises on .strip(). -/
def contentOf (d : PyDict) : Except String String :=
  match d.get? "content" with
  | none => .ok ""
  | some (.pystr s) => .ok s
  | some _ => .error "AttributeError: strip"

/-- links = raw.get("links", []), passed opaquely to the prompt builder. -/
def linksOf (d : PyDict) : PyVal :=
  match d.get? "links" with
  | none => .pylist .nil
  | some v => v

/-- One iteration of the loop of standardize_resumes (lines 212-261). The
output path is the parsed file name itself (output_path = standardized_dir /
file_path.name); when that output already exists the file is appended and
counted with no further work. Otherwise the parsed file is read, its content
checked, the backend called, the raw response logged next to the output, the
cleaned response parsed, stamped, and written. -/
def standardizeOneFile (env : StdEnv) (parsedDir : List (String × PyDict))
    (st : StdState) (fileName : String) : StdState :=
  if (fsRead st.standardizedDir fileName).isSome then
    { st with
      standardizedFiles := st.standardizedFiles ++ [fileName]
      standardizedCount := st.standardizedCount + 1 }
  else
    match fsRead parsedDir fileName with
    | none =>
        { st with events := st.events ++
            [.errorMsg ("Error standardizing " ++ fileName ++ ": FileNotFoundError")] }
    | some raw =>
        match contentOf raw with
        | .error e =>
            { st with events := st.events ++
                [.errorMsg ("Error standardizing " ++ fileName ++ ": " ++ e)] }
        | .ok content =>
            if pyStrip content = "" then
              { st with events := st.events ++
                  [.warn ("Empty content in " ++ fileName ++ ", skipping.")] }
            else
              let st1 : StdState := { st with events := st.events ++ [Event.backendCall fileName] }
              match env.llm content (linksOf raw) with
              | .error e =>
                  { st1 with events := st1.events ++
                      [.errorMsg ("Error standardizing " ++ fileName ++ ": " ++ e)] }
              | .ok rawResponse =>
                  let st2 : StdState := { st1 with
                    rawLogs := fsWrite st1.rawLogs (pyStem fileName ++ "_raw.md") rawResponse }
                  match env.cleanParse rawResponse with
                  | .error e =>
                      { st2 with events := st2.events ++
                          [.errorMsg ("Error standardizing " ++ fileName ++ ": " ++ e)] }
                  | .ok parsedJson =>
                      let stamped0 := (parsedJson.set "timestamp" (.pystr env.now)).set
                        "source_file" (.pystr fileName)
                      let stamped :=
                        match raw.get? "original_filename" with
                        | some ofn => stamped0.set "original_filename" ofn
                        | none => stamped0
                      { st2 with
                        standardizedDir := fsWrite st2.standardizedDir fileName stamped
                        standardizedFiles := st2.standardizedFiles ++ [fileName]
                        standardizedCount := st2.standardizedCount + 1 }

/-- standardize_resumes: constructor check, per-file loop over the processed
files, final "Standardized c/t files" summary. The standardized session list
is reset at entry; existing files in the standardized directory carry over
from previous runs (they live in the temp directory), which is what the
presence check keys on. -/
def standardize_resumes (env : StdEnv) (parsedDir : List (String × PyDict))
    (processedFiles : List String) (standardizedDir0 : List (String × PyDict)) : StdState :=
  let st0 : StdState :=
    { standardizedDir := standardizedDir0
      rawLogs := []
      standardizedFiles := []
      standardizedCount := 0
      events := [.statusMsg ("Standardizing " ++ toString processedFiles.length ++ " files...")] }
  if !env.initOk then
    { st0 with events := st0.events ++ [.errorMsg "Error initializing standardizer"] }
  else
    let st1 := processedFiles.foldl (standardizeOneFile env parsedDir) st0
    { st1 with events := st1.events ++
        [.statusMsg ("Standardized " ++ toString st1.standardizedCount ++ "/" ++
          toString processedFiles.length ++ " files")] }

/-!
Stage 3 - upload_to_mongodb (src/main.py lines 278-313).

The store (db_manager.ResumeDBManager) is an external collaborator: connectOk
models the constructor, whose failure aborts the stage; upsert models
insert_or_update_resume, an opaque idempotent write that may raise.
-/

structure DbEnv where
  connectOk : Bool
  upsert : PyDict → Except String Unit

structure DbState where
  uploadedFiles : List String
  uploadedCount : Nat
  events : List Event

/-- One iteration of the loop of upload_to_mongodb (lines 295-310). -/
def uploadOneFile (env : DbEnv) (standardizedDir : List (String × PyDict))
    (st : DbState) (fileName : String) : DbState :=
  match fsRead standardizedDir fileName with
  | none =>
      { st with events := st.events ++
          [.errorMsg ("Error uploading " ++ fileName ++ ": FileNotFoundError")] }
  | some resumeData =>
      match env.upsert resumeData with
      | .error e =>
          { st with events := st.events ++
              [.errorMsg ("Error uploading " ++ fileName ++ ": " ++ e)] }
      | .ok _ =>
          { st with
            uploadedFiles := st.uploadedFiles ++ [fileName]
            uploadedCount := st.uploadedCount + 1 }

/-- upload_to_mongodb: connection check, per-file loop, final
"Uploaded c/t resumes to MongoDB" summary. -/
def upload_to_mongodb (env : DbEnv) (standardizedDir : List (String × PyDict))
    (standardizedFiles : List String) : DbState :=
  let st0 : DbState := { uploadedFiles := [], uploadedCount := 0, events := [] }
  if !env.connectOk then
    { st0 with events := st0.events ++ [.errorMsg "Error connecting to MongoDB"] }
  else
    let st1 := standardizedFiles.foldl (uploadOneFile env standardizedDir) st0
    { st1 with events := st1.events ++
        [.statusMsg ("Uploaded " ++ toString st1.uploadedCount ++ "/" ++
          toString standardizedFiles.length ++ " resumes to MongoDB")] }

/-!
Stage 4 - validate_and_reprocess_resumes (src/main.py lines 315-379).

Per standardized file: read the record, run the name check of line 326; when
it reports a missing or short name, count the record, locate the uploaded
document with the same stem, re-parse it with the OCR parser, save the parsed
JSON, re-standardize it, stamp it, and overwrite the standardized record in
place. Any exception inside the per-record try block is caught at line 376
and reported as "Error validating ...". The OCR parser
(OCR_resume_parser.ResumeParserwithOCR), the standardizer constructor
(a ValueError source, line 356) and the backend calls are oracles as before;
ocrParse is keyed by the uploaded file name, and may also return a falsy
result (.ok none, the "Failed to re-parse" case at line 375).
-/

structure ValEnv where
  ocrParse : String → Except String (Option PyDict)
  stdInit : Except String Unit
  llm : String → PyVal → Except String String
  cleanParse : String → Except String PyDict
  now : String

structure ValState where
  store : List (String × PyDict)
  parsedDir : List (String × PyDict)
  reprocessedCount : Nat
  events : List Event

/-- One iteration of the loop of validate_and_reprocess_resumes
(lines 320-377), processing one entry of the standardized session list. -/
def validateOneFile (env : ValEnv) (uploaded : List String) (st : ValState)
    (fileName : String) : ValState :=
  match fsRead st.store fileName with
  | none =>
      { st with events := st.events ++
          [.errorMsg ("Error validating " ++ fileName ++ ": FileNotFoundError")] }
  | some resumeData =>
      match nameCheck (resumeData.get? "name") with
      | .error e =>
          { st with events := st.events ++
              [.errorMsg ("Error validating " ++ fileName ++ ": " ++ e)] }
      | .ok false => st
      | .ok true =>
          let st1 : ValState := { st with
            events := st.events ++
              [.warn ("Missing name in " ++ fileName ++ ". Reprocessing...")]
            reprocessedCount := st.reprocessedCount + 1 }
          let originalFileName := pyStem fileName
          match uploaded.find? (fun u => pyStem u = originalFileName) with
          | none =>
              { st1 with events := st1.events ++
                  [.errorMsg ("Original file for " ++ fileName ++
                    " not found in uploaded files.")] }
          | some orig =>
              let st2 : ValState := { st1 with events := st1.events ++ [.ocrCall fileName] }
              match env.ocrParse orig with
              | .error e =>
                  { st2 with events := st2.events ++
                      [.errorMsg ("Error validating " ++ fileName ++ ": " ++ e)] }
              | .ok none =>
                  { st2 with events := st2.events ++
                      [.errorMsg ("Failed to re-parse " ++ orig)] }
              | .ok (some parsed) =>
                  let st3 : ValState := { st2 with
                    parsedDir := fsWrite st2.parsedDir (originalFileName ++ ".json") parsed }
                  match env.stdInit with
                  | .error e =>
                      { st3 with events := st3.events ++
                          [.errorMsg ("Error validating " ++ fileName ++ ": " ++ e)] }
                  | .ok _ =>
                      match contentOf parsed with
                      | .error e =>
                          { st3 with events := st3.events ++
                              [.errorMsg ("Error validating " ++ fileName ++ ": " ++ e)] }
                      | .ok content =>
                          let st4 : ValState := { st3 with
                            events := st3.events ++ [.backendCall fileName] }
                          match env.llm content (linksOf parsed) with
                          | .error e =>
                              { st4 with events := st4.events ++
                                  [.errorMsg ("Error validating " ++ fileName ++ ": " ++ e)] }
                          | .ok rawResponse =>
                              match env.cleanParse rawResponse with
                              | .error e =>
                                  { st4 with events := st4.events ++
                                      [.errorMsg ("Error validating " ++ fileName ++ ": " ++ e)] }
                              | .ok parsedJson =>
                                  let stamped := ((parsedJson.set "timestamp"
                                    (.pystr env.now)).set "source_file"
                                    (.pystr orig)).set "original_filename" (.pystr orig)
                                  { st4 with
                                    store := fsWrite st4.store fileName stamped
                                    events := st4.events ++
                                      [.successMsg ("Reprocessed and standardized: " ++
                                        fileName)] }

/-- validate_and_reprocess_resumes: the opening status line, the loop over the
standardized session list, and the closing "Reprocessed n resumes" summary. -/
def validate_and_reprocess_resumes (env : ValEnv) (uploaded : List String)
    (standardizedFiles : List String) (store0 parsedDir0 : List (String × PyDict)) : ValState :=
  let st0 : ValState :=
    { store := store0
      parsedDir := parsedDir0
      reprocessedCount := 0
      events := [.statusMsg "Validating standardized resumes..."] }
  let st1 := standardizedFiles.foldl (validateOneFile env uploaded) st0
  { st1 with events := st1.events ++
      [.statusMsg ("Reprocessed " ++ toString st1.reprocessedCount ++
        " resumes with missing name.")] }

/-!
Auxiliary lemmas about dict updates and directory writes.
-/

theorem PyDict.get?_set_self : ∀ (d : PyDict) (k : String) (v : PyVal),
    (d.set k v).get? k = some v
  | .nil, k, v => by simp [PyDict.set, PyDict.get?]
  | .cons k' v' rest, k, v => by
    rw [PyDict.set]
    by_cases h : k' = k
    · rw [if_pos h, PyDict.get?, if_pos rfl]
    · rw [if_neg h, PyDict.get?, if_neg h, PyDict.get?_set_self rest k v]

theorem PyDict.get?_set_ne : ∀ (d : PyDict) (k k' : String) (v : PyVal), k ≠ k' →
    (d.set k v).get? k' = d.get? k'
  | .nil, k, k', v, h => by simp [PyDict.set, PyDict.get?, h]
  | .cons k0 v0 rest, k, k', v, h => by
    rw [PyDict.set]
    by_cases h0 : k0 = k
    · subst h0
      rw [if_pos rfl, PyDict.get?, PyDict.get?, if_neg h, if_neg h]
    · rw [if_neg h0, PyDict.get?, PyDict.get?, PyDict.get?_set_ne rest k k' v h]

theorem PyDict.mem_keys_set : ∀ (d : PyDict) (k k' : String) (v : PyVal),
    k' ∈ (d.set k v).keys → k' ∈ d.keys ∨ k' = k
  | .nil, k, k', v, h => by
    simp [PyDict.set, PyDict.keys] at h
    exact Or.inr h
  | .cons k0 v0 rest, k, k', v, h => by
    rw [PyDict.set] at h
    by_cases h0 : k0 = k
    · rw [if_pos h0] at h
      rcases List.mem_cons.mp h with rfl | h
      · exact Or.inr rfl
      · exact Or.inl (List.mem_cons_of_mem k0 h)
    · rw [if_neg h0] at h
      rcases List.mem_cons.mp h with rfl | h
      · exact Or.inl (List.mem_cons_self _ _)
      · rcases PyDict.mem_keys_set rest k k' v h with h1 | h1
        · exact Or.inl (List.mem_cons_of_mem k0 h1)
        · exact Or.inr h1

theorem fsRead_fsWrite_self {α : Type} : ∀ (dir : List (String × α)) (k : String) (v : α),
    fsRead (fsWrite dir k v) k = some v
  | [], k, v => by simp [fsWrite, fsRead]
  | (k', v') :: rest, k, v => by
    rw [fsWrite]
    by_cases h : k' = k
    · rw [if_pos h, fsRead, if_pos rfl]
    · rw [if_neg h, fsRead, if_neg h, fsRead_fsWrite_self rest k v]

theorem fsRead_fsWrite_ne {α : Type} : ∀ (dir : List (String × α)) (k k' : String) (v : α),
    k ≠ k' → fsRead (fsWrite dir k v) k' = fsRead dir k'
  | [], k, k', v, h => by simp [fsWrite, fsRead, h]
  | (k0, v0) :: rest, k, k', v, h => by
    rw [fsWrite]
    by_cases h0 : k0 = k
    · subst h0
      rw [if_pos rfl, fsRead, fsRead, if_neg h, if_neg h]
    · rw [if_neg h0, fsRead, fsRead, fsRead_fsWrite_ne rest k k' v h]

/-!
Claim theorems.
-/

/-- C9: convert_objectid_to_str is idempotent; on a value containing no
ObjectId it is the identity; it preserves list length and order and dict keys,
and it replaces exactly the ObjectId leaves by their string form. -/
theorem claim_C9_convert_objectid_algebra (v w x : PyVal) (xs : PyList) (kvs : PyDict)
    (s k : String) (h : noObjectId w = true) :
    convert_objectid_to_str (convert_objectid_to_str v) = convert_objectid_to_str v
    ∧ convert_objectid_to_str w = w
    ∧ (convertObjList xs).length = xs.length
    ∧ (convertObjDict kvs).keys = kvs.keys
    ∧ convertObjList (.cons x xs) = .cons (convert_objectid_to_str x) (convertObjList xs)
    ∧ convertObjDict (.cons k x kvs) = .cons k (convert_objectid_to_str x) (convertObjDict kvs)
    ∧ convert_objectid_to_str (.objectId s) = .pystr s :=
  ⟨convert_objectid_idem v, convert_objectid_id_of_clean w h,
   convertObjList_length xs, convertObjDict_keys kvs, rfl, rfl, rfl⟩

theorem claim_C9_witness :
    noObjectId (.pydict (.cons "name" (.pystr "Ana") .nil)) = true
    ∧ convert_objectid_to_str (convert_objectid_to_str
        (.pylist (.cons (.objectId "65a1") (.cons (.pystr "x") .nil)))) =
      convert_objectid_to_str (.pylist (.cons (.objectId "65a1") (.cons (.pystr "x") .nil)))
    ∧ convert_objectid_to_str (.pydict (.cons "name" (.pystr "Ana") .nil)) =
      .pydict (.cons "name" (.pystr "Ana") .nil)
    ∧ (convertObjList (.cons (.objectId "65a1") (.cons (.pystr "x") .nil))).length =
      (PyList.cons (.objectId "65a1") (.cons (.pystr "x") .nil)).length
    ∧ (convertObjDict (.cons "a" (.objectId "65a1") .nil)).keys =
      (PyDict.cons "a" (.objectId "65a1") .nil).keys
    ∧ convertObjList (.cons (.pyint 3) (.cons (.objectId "65a1") (.cons (.pystr "x") .nil))) =
      .cons (convert_objectid_to_str (.pyint 3))
        (convertObjList (.cons (.objectId "65a1") (.cons (.pystr "x") .nil)))
    ∧ convertObjDict (.cons "k" (.pyint 3) (.cons "a" (.objectId "65a1") .nil)) =
      .cons "k" (convert_objectid_to_str (.pyint 3))
        (convertObjDict (.cons "a" (.objectId "65a1") .nil))
    ∧ convert_objectid_to_str (.objectId "65a1") = .pystr "65a1" :=
  ⟨rfl, claim_C9_convert_objectid_algebra
    (.pylist (.cons (.objectId "65a1") (.cons (.pystr "x") .nil)))
    (.pydict (.cons "name" (.pystr "Ana") .nil))
    (.pyint 3) (.cons (.objectId "65a1") (.cons (.pystr "x") .nil))
    (.cons "a" (.objectId "65a1") .nil) "65a1" "k" rfl⟩

/-- C7 counterexample: the retailored-resume download payload is built at
src/main.py lines 459, 558 and 940 with json.dumps(obj, indent=2), leaving
ensure_ascii at its default True, so a non-ASCII character such as the
accented e in Jose-acute is NOT preserved literally: it is emitted as the
escape sequence backslash-u00e9. This refutes the claim that download
payloads preserve non-ASCII characters rather than escaping them. -/
theorem claim_C7_counterexample :
    downloadPayload (.pydict (.cons "name" (.pystr "José") .nil)) =
      .ok "\x7b\n  \"name\": \"Jos\\u00e9\"\n\x7d"
    ∧ 'é' ∈ "José".data
    ∧ 'é' ∉ "\x7b\n  \"name\": \"Jos\\u00e9\"\n\x7d".data :=
  ⟨rfl, by decide, by decide⟩

/-- C7 (amended): the download payloads are pretty-printed with indent 2, but
with non-ASCII characters escaped, not preserved: every successfully produced
payload consists of ASCII characters only, because dumps is called without
ensure_ascii=False (unlike the on-disk artifact writes at lines 174, 253 and
371, which do pass ensure_ascii=False). -/
theorem claim_C7_amended_payload_ascii (v : PyVal) (out : String)
    (h : downloadPayload v = .ok out) : asciiL out.data := by
  rw [downloadPayload] at h
  cases hd : dumpsV true 2 0 v with
  | error e => rw [hd] at h; cases h
  | ok cs =>
    rw [hd] at h
    cases h
    exact dumpsV_ascii 2 0 v cs hd

theorem claim_C7_witness :
    downloadPayload (.pydict (.cons "skills" (.pylist (.cons (.pystr "Pythón") .nil)) .nil)) =
      .ok "\x7b\n  \"skills\": \x5b\n    \"Pyth\\u00f3n\"\n  \x5d\n\x7d"
    ∧ asciiL "\x7b\n  \"skills\": \x5b\n    \"Pyth\\u00f3n\"\n  \x5d\n\x7d".data :=
  ⟨rfl, claim_C7_amended_payload_ascii
    (.pydict (.cons "skills" (.pylist (.cons (.pystr "Pythón") .nil)) .nil)) _ rfl⟩

/-- C1: when a standardized output file for the parsed file name (the
identity key is the filename stem; the output file is stem.json) already
exists, the loop body of standardize_resumes makes no backend call for that
file and reuses the existing record: the existing output path is appended to
the standardized session list, the file is counted as standardized, nothing
else changes (no event is emitted, in particular no backendCall), and the
loop proceeds with the next file. -/
theorem claim_C1_skip_existing_standardized (env : StdEnv)
    (parsedDir : List (String × PyDict)) (st : StdState) (fileName : String)
    (h : (fsRead st.standardizedDir fileName).isSome = true) :
    standardizeOneFile env parsedDir st fileName =
      { st with
        standardizedFiles := st.standardizedFiles ++ [fileName]
        standardizedCount := st.standardizedCount + 1 }
    ∧ (standardizeOneFile env parsedDir st fileName).events = st.events
    ∧ (standardizeOneFile env parsedDir st fileName).standardizedDir = st.standardizedDir
    ∧ ∀ rest : List String,
        List.foldl (standardizeOneFile env parsedDir) st (fileName :: rest) =
          List.foldl (standardizeOneFile env parsedDir)
            (standardizeOneFile env parsedDir st fileName) rest := by
  refine ⟨?_, ?_, ?_, fun rest => rfl⟩
  · rw [standardizeOneFile, if_pos h]
  · rw [standardizeOneFile, if_pos h]
  · rw [standardizeOneFile, if_pos h]

theorem claim_C1_witness :
    ((fsRead ([("a.json", PyDict.cons "name" (.pystr "Jo Smith") .nil)] :
        List (String × PyDict)) "a.json").isSome = true)
    ∧ standardizeOneFile
        { llm := fun _ _ => .error "unused", cleanParse := fun _ => .error "unused",
          initOk := true, now := "2026-10-12T00:00:00" } []
        { standardizedDir := [("a.json", PyDict.cons "name" (.pystr "Jo Smith") .nil)],
          rawLogs := [], standardizedFiles := [], standardizedCount := 0, events := [] }
        "a.json" =
      { standardizedDir := [("a.json", PyDict.cons "name" (.pystr "Jo Smith") .nil)],
        rawLogs := [], standardizedFiles := ["a.json"], standardizedCount := 1, events := [] } :=
  ⟨rfl,
   (claim_C1_skip_existing_standardized
      { llm := fun _ _ => .error "unused", cleanParse := fun _ => .error "unused",
        initOk := true, now := "2026-10-12T00:00:00" } []
      { standardizedDir := [("a.json", PyDict.cons "name" (.pystr "Jo Smith") .nil)],
        rawLogs := [], standardizedFiles := [], standardizedCount := 0, events := [] }
      "a.json" rfl).1⟩

/-- C8: on every successful standardization of a parsed file the output record
is stamped with timestamp (datetime.now().isoformat(), the environment clock)
and source_file (the parsed file path), and the original_filename present in
the parsed input provenance (process_uploaded_files always writes it, lines
169-170) is forwarded unchanged, before the record is written to the
standardized output path; the file is then counted as standardized. -/
theorem claim_C8_success_stamps (env : StdEnv) (parsedDir : List (String × PyDict))
    (st : StdState) (fileName : String) (raw : PyDict) (content : String)
    (rawResponse : String) (parsedJson : PyDict) (ofn : PyVal)
    (h1 : fsRead st.standardizedDir fileName = none)
    (h2 : fsRead parsedDir fileName = some raw)
    (h3 : contentOf raw = .ok content)
    (h4 : ¬ pyStrip content = "")
    (h5 : env.llm content (linksOf raw) = .ok rawResponse)
    (h6 : env.cleanParse rawResponse = .ok parsedJson)
    (h7 : raw.get? "original_filename" = some ofn) :
    fsRead (standardizeOneFile env parsedDir st fileName).standardizedDir fileName =
      some (((parsedJson.set "timestamp" (.pystr env.now)).set "source_file"
        (.pystr fileName)).set "original_filename" ofn)
    ∧ (((parsedJson.set "timestamp" (.pystr env.now)).set "source_file"
        (.pystr fileName)).set "original_filename" ofn).get? "timestamp" =
      some (.pystr env.now)
    ∧ (((parsedJson.set "timestamp" (.pystr env.now)).set "source_file"
        (.pystr fileName)).set "original_filename" ofn).get? "source_file" =
      some (.pystr fileName)
    ∧ (((parsedJson.set "timestamp" (.pystr env.now)).set "source_file"
        (.pystr fileName)).set "original_filename" ofn).get? "original_filename" = some ofn
    ∧ (standardizeOneFile env parsedDir st fileName).standardizedCount =
      st.standardizedCount + 1 := by
  have hstep : standardizeOneFile env parsedDir st fileName =
      { st with
        rawLogs := fsWrite st.rawLogs (pyStem fileName ++ "_raw.md") rawResponse
        events := st.events ++ [Event.backendCall fileName]
        standardizedDir := fsWrite st.standardizedDir fileName
          (((parsedJson.set "timestamp" (.pystr env.now)).set "source_file"
            (.pystr fileName)).set "original_filename" ofn)
        standardizedFiles := st.standardizedFiles ++ [fileName]
        standardizedCount := st.standardizedCount + 1 } := by
    rw [standardizeOneFile]
    rw [if_neg (by rw [h1]; simp)]
    simp only [h2, h3, h5, h6, h7, if_neg h4]
  refine ⟨?_, ?_, ?_, ?_, ?_⟩
  · rw [hstep]
    exact fsRead_fsWrite_self _ _ _
  · rw [PyDict.get?_set_ne _ _ _ _ (by decide), PyDict.get?_set_ne _ _ _ _ (by decide),
      PyDict.get?_set_self]
  · rw [PyDict.get?_set_ne _ _ _ _ (by decide), PyDict.get?_set_self]
  · rw [PyDict.get?_set_self]
  · rw [hstep]

theorem claim_C8_witness :
    (fsRead ([] : List (String × PyDict)) "a.json" = none)
    ∧ (fsRead [("a.json", PyDict.cons "content" (.pystr "resume text")
        (.cons "original_filename" (.pystr "a.pdf") .nil))] "a.json" =
      some (PyDict.cons "content" (.pystr "resume text")
        (.cons "original_filename" (.pystr "a.pdf") .nil)))
    ∧ (contentOf (PyDict.cons "content" (.pystr "resume text")
        (.cons "original_filename" (.pystr "a.pdf") .nil)) = .ok "resume text")
    ∧ ¬ pyStrip "resume text" = ""
    ∧ fsRead (standardizeOneFile
        { llm := fun _ _ => .ok "RAW", cleanParse := fun _ =>
            .ok (.cons "name" (.pystr "Jo Smith") .nil),
          initOk := true, now := "2026-10-12T00:00:00" }
        [("a.json", PyDict.cons "content" (.pystr "resume text")
          (.cons "original_filename" (.pystr "a.pdf") .nil))]
        { standardizedDir := [], rawLogs := [], standardizedFiles := [],
          standardizedCount := 0, events := [] }
        "a.json").standardizedDir "a.json" =
      some ((((PyDict.cons "name" (.pystr "Jo Smith") .nil).set "timestamp"
        (.pystr "2026-10-12T00:00:00")).set "source_file"
        (.pystr "a.json")).set "original_filename" (.pystr "a.pdf")) := by
  refine ⟨rfl, rfl, rfl, by decide, ?_⟩
  exact (claim_C8_success_stamps
    { llm := fun _ _ => .ok "RAW", cleanParse := fun _ =>
        .ok (.cons "name" (.pystr "Jo Smith") .nil),
      initOk := true, now := "2026-10-12T00:00:00" }
    [("a.json", PyDict.cons "content" (.pystr "resume text")
      (.cons "original_filename" (.pystr "a.pdf") .nil))]
    { standardizedDir := [], rawLogs := [], standardizedFiles := [],
      standardizedCount := 0, events := [] }
    "a.json"
    (PyDict.cons "content" (.pystr "resume text")
      (.cons "original_filename" (.pystr "a.pdf") .nil))
    "resume text" "RAW" (.cons "name" (.pystr "Jo Smith") .nil) (.pystr "a.pdf")
    rfl rfl rfl (by decide) rfl rfl rfl).1

/-- Characterization of the line-326 selection condition: it computes .ok true
exactly when the name value is missing, or falsy, or a truthy string whose
first whitespace-delimited token is shorter than 2 characters. -/
theorem nameCheck_ok_true_iff (v : Option PyVal) :
    nameCheck v = .ok true ↔
      (v = none
        ∨ (∃ pv, v = some pv ∧ pyTruthy pv = false)
        ∨ (∃ s t ts, v = some (.pystr s) ∧ pyTruthy (.pystr s) = true
            ∧ pySplit s = t :: ts ∧ t.length < 2)) := by
  cases v with
  | none => simp [nameCheck]
  | some pv =>
    cases pv with
    | pynull =>
      constructor
      · intro _
        exact Or.inr (Or.inl ⟨.pynull, rfl, rfl⟩)
      · intro _
        rfl
    | pybool b =>
      cases b with
      | false =>
        constructor
        · intro _
          exact Or.inr (Or.inl ⟨.pybool false, rfl, rfl⟩)
        · intro _
          rfl
      | true =>
        constructor
        · intro h
          cases h
        · rintro (h | ⟨pv2, hpv, hf⟩ | ⟨s2, t2, ts2, hv, hts, hsp2, hlen⟩)
          · cases h
          · injection hpv with hpv
            rw [← hpv] at hf
            cases hf
          · cases hv
    | pyint n =>
      by_cases hn : n = 0
      · subst hn
        constructor
        · intro _
          exact Or.inr (Or.inl ⟨.pyint 0, rfl, rfl⟩)
        · intro _
          rfl
      · have hc : nameCheck (some (.pyint n)) = .error "AttributeError: split" := by
          rw [nameCheck, if_neg (by simp [pyTruthy, hn])]
          intro s2 hh
          cases hh
        rw [hc]
        constructor
        · intro h
          cases h
        · rintro (h | ⟨pv2, hpv, hf⟩ | ⟨s2, t2, ts2, hv, hts, hsp2, hlen⟩)
          · cases h
          · injection hpv with hpv
            rw [← hpv] at hf
            simp [pyTruthy, hn] at hf
          · cases hv
    | pystr s =>
      by_cases hs : s = ""
      · subst hs
        constructor
        · intro _
          exact Or.inr (Or.inl ⟨.pystr "", rfl, rfl⟩)
        · intro _
          rfl
      · have htr : pyTruthy (.pystr s) = true := by simp [pyTruthy, hs]
        have hc : nameCheck (some (.pystr s)) =
            (match pySplit s with
              | [] => Except.error "IndexError: list index out of range"
              | t :: _ => Except.ok (decide (t.length < 2))) := by
          rw [nameCheck, if_neg (by simp [htr])]
        rw [hc]
        cases hsp : pySplit s with
        | nil =>
          constructor
          · intro h
            cases h
          · rintro (h | ⟨pv2, hpv, hf⟩ | ⟨s2, t2, ts2, hv, hts, hsp2, hlen⟩)
            · cases h
            · injection hpv with hpv
              rw [← hpv] at hf
              rw [htr] at hf
              cases hf
            · injection hv with hv
              injection hv with hv
              subst hv
              rw [hsp] at hsp2
              cases hsp2
        | cons t ts =>
          constructor
          · intro h
            have hlen : t.length < 2 := of_decide_eq_true (Except.ok.inj h)
            exact Or.inr (Or.inr ⟨s, t, ts, rfl, htr, hsp, hlen⟩)
          · rintro (h | ⟨pv2, hpv, hf⟩ | ⟨s2, t2, ts2, hv, hts, hsp2, hlen⟩)
            · cases h
            · injection hpv with hpv
              rw [← hpv] at hf
              rw [htr] at hf
              cases hf
            · injection hv with hv
              injection hv with hv
              subst hv
              rw [hsp] at hsp2
              injection hsp2 with ha hb
              subst ha
              simp [hlen]
    | objectId oid =>
      have hc : nameCheck (some (.objectId oid)) = .error "AttributeError: split" := by
        rw [nameCheck, if_neg (by simp [pyTruthy])]
        intro s2 hh
        cases hh
      rw [hc]
      constructor
      · intro h
        cases h
      · rintro (h | ⟨pv2, hpv, hf⟩ | ⟨s2, t2, ts2, hv, hts, hsp2, hlen⟩)
        · cases h
        · injection hpv with hpv
          rw [← hpv] at hf
          cases hf
        · cases hv
    | pylist xs =>
      cases xs with
      | nil =>
        constructor
        · intro _
          exact Or.inr (Or.inl ⟨.pylist .nil, rfl, rfl⟩)
        · intro _
          rfl
      | cons x xs =>
        constructor
        · intro h
          cases h
        · rintro (h | ⟨pv2, hpv, hf⟩ | ⟨s2, t2, ts2, hv, hts, hsp2, hlen⟩)
          · cases h
          · injection hpv with hpv
            rw [← hpv] at hf
            cases hf
          · cases hv
    | pydict kvs =>
      cases kvs with
      | nil =>
        constructor
        · intro _
          exact Or.inr (Or.inl ⟨.pydict .nil, rfl, rfl⟩)
        · intro _
          rfl
      | cons k v2 kvs =>
        constructor
        · intro h
          cases h
        · rintro (h | ⟨pv2, hpv, hf⟩ | ⟨s2, t2, ts2, hv, hts, hsp2, hlen⟩)
          · cases h
          · injection hpv with hpv
            rw [← hpv] at hf
            cases hf
          · cases hv

/-- Modelled from the spec, section 3: the name-validity predicate the claim
asserts drives selection: name present and non-empty, and its first
whitespace-delimited token has length at least 2. Written from the claim
words, for comparison with the selection condition implemented at line 326. -/
def validNameSpec (d : PyDict) : Prop :=
  ∃ s t ts, d.get? "name" = some (.pystr s) ∧ s ≠ "" ∧ pySplit s = t :: ts ∧ 2 ≤ t.length

/-- C3 counterexample: a record whose name is the one-space string violates
the name-validity predicate (the name is a non-empty string with no first
whitespace-delimited token at all), yet the loop body of
validate_and_reprocess_resumes does not select it for reprocessing: the check
at line 326 raises IndexError, the per-record handler reports a validation
error, and the reprocessed counter stays at zero. So "selected if and only if
the validity predicate is violated" fails on this input. -/
theorem claim_C3_counterexample :
    ¬ validNameSpec (PyDict.cons "name" (.pystr " ") .nil)
    ∧ validateOneFile
        { ocrParse := fun _ => .error "unused", stdInit := .ok (),
          llm := fun _ _ => .error "unused", cleanParse := fun _ => .error "unused",
          now := "2026-10-12T00:00:00" } []
        { store := [("a.json", PyDict.cons "name" (.pystr " ") .nil)], parsedDir := [],
          reprocessedCount := 0, events := [] } "a.json" =
      { store := [("a.json", PyDict.cons "name" (.pystr " ") .nil)], parsedDir := [],
        reprocessedCount := 0,
        events := [.errorMsg
          "Error validating a.json: IndexError: list index out of range"] } := by
  constructor
  · rintro ⟨s, t, ts, hget, hne, hsp, hlen⟩
    have hs : (" " : String) = s := by
      have hg2 : some (PyVal.pystr " ") = some (PyVal.pystr s) := by
        rw [← hget, PyDict.get?, if_pos rfl]
      injection hg2 with hg3
      injection hg3
    rw [← hs] at hsp
    have : pySplit " " = [] := rfl
    rw [this] at hsp
    cases hsp
  · rfl

/-- C3 (amended): a standardized record is selected for reprocessing if and
only if the line-326 check computes true without raising, which holds exactly
when the name value is missing, or falsy (such as the empty string), or a
truthy string whose first whitespace-delimited token is shorter than 2; a
record whose non-empty name is all whitespace (or whose truthy name is not a
string) instead raises inside the check and is not selected. -/
theorem claim_C3_amended_selection (env : ValEnv) (uploaded : List String)
    (st : ValState) (fileName : String) (d : PyDict)
    (hread : fsRead st.store fileName = some d) :
    ((validateOneFile env uploaded st fileName).reprocessedCount =
        st.reprocessedCount + 1 ↔ nameCheck (d.get? "name") = .ok true)
    ∧ (nameCheck (d.get? "name") = .ok true ↔
        (d.get? "name" = none
          ∨ (∃ pv, d.get? "name" = some pv ∧ pyTruthy pv = false)
          ∨ (∃ s t ts, d.get? "name" = some (.pystr s) ∧ pyTruthy (.pystr s) = true
              ∧ pySplit s = t :: ts ∧ t.length < 2))) := by
  refine ⟨?_, nameCheck_ok_true_iff _⟩
  rw [validateOneFile]
  simp only [hread]
  cases hc : nameCheck (d.get? "name") with
  | error e => simp
  | ok b =>
    cases b with
    | false => simp
    | true =>
      simp only [eq_self_iff_true, iff_true]
      repeat' split
      all_goals rfl

theorem claim_C3_witness :
    (fsRead [("a.json", PyDict.cons "name" (.pystr "J") .nil)] "a.json" =
      some (PyDict.cons "name" (.pystr "J") .nil))
    ∧ ((validateOneFile
          { ocrParse := fun _ => .error "unused", stdInit := .ok (),
            llm := fun _ _ => .error "unused", cleanParse := fun _ => .error "unused",
            now := "2026-10-12T00:00:00" } []
          { store := [("a.json", PyDict.cons "name" (.pystr "J") .nil)], parsedDir := [],
            reprocessedCount := 0, events := [] } "a.json").reprocessedCount = 0 + 1 ↔
        nameCheck ((PyDict.cons "name" (.pystr "J") .nil).get? "name") = .ok true) :=
  ⟨rfl,
   (claim_C3_amended_selection
      { ocrParse := fun _ => .error "unused", stdInit := .ok (),
        llm := fun _ _ => .error "unused", cleanParse := fun _ => .error "unused",
        now := "2026-10-12T00:00:00" } []
      { store := [("a.json", PyDict.cons "name" (.pystr "J") .nil)], parsedDir := [],
        reprocessedCount := 0, events := [] } "a.json"
      (PyDict.cons "name" (.pystr "J") .nil) rfl).1⟩

/-- C6: when reprocessing an invalid record, if no uploaded document with the
same filename stem exists, the failure is non-fatal: the loop body reports the
not-found error (after the selection warning and the counter increment that
line 328 performs before the lookup), the stored standardized record (indeed
the whole store) is left unchanged, and the loop proceeds with the remaining
records. -/
theorem claim_C6_missing_original_nonfatal (env : ValEnv) (uploaded : List String)
    (st : ValState) (fileName : String) (d : PyDict)
    (hread : fsRead st.store fileName = some d)
    (hcheck : nameCheck (d.get? "name") = .ok true)
    (hmiss : ∀ u ∈ uploaded, ¬ pyStem u = pyStem fileName) :
    validateOneFile env uploaded st fileName =
      { st with
        reprocessedCount := st.reprocessedCount + 1
        events := st.events ++
          [.warn ("Missing name in " ++ fileName ++ ". Reprocessing..."),
           .errorMsg ("Original file for " ++ fileName ++ " not found in uploaded files.")] }
    ∧ (validateOneFile env uploaded st fileName).store = st.store
    ∧ ∀ rest : List String,
        List.foldl (validateOneFile env uploaded) st (fileName :: rest) =
          List.foldl (validateOneFile env uploaded)
            (validateOneFile env uploaded st fileName) rest := by
  have hfind : uploaded.find? (fun u => pyStem u = pyStem fileName) = none := by
    rw [List.find?_eq_none]
    intro u hu
    simp [hmiss u hu]
  have hstep : validateOneFile env uploaded st fileName =
      { st with
        reprocessedCount := st.reprocessedCount + 1
        events := st.events ++
          [.warn ("Missing name in " ++ fileName ++ ". Reprocessing..."),
           .errorMsg ("Original file for " ++ fileName ++ " not found in uploaded files.")] } := by
    rw [validateOneFile]
    simp only [hread, hcheck, hfind, List.append_assoc, List.singleton_append]
  exact ⟨hstep, by rw [hstep], fun rest => rfl⟩

theorem claim_C6_witness :
    (fsRead [("a.json", PyDict.cons "name" (.pystr "") .nil)] "a.json" =
      some (PyDict.cons "name" (.pystr "") .nil))
    ∧ nameCheck ((PyDict.cons "name" (.pystr "") .nil).get? "name") = .ok true
    ∧ (∀ u ∈ (["b.pdf"] : List String), ¬ pyStem u = pyStem "a.json")
    ∧ validateOneFile
        { ocrParse := fun _ => .error "unused", stdInit := .ok (),
          llm := fun _ _ => .error "unused", cleanParse := fun _ => .error "unused",
          now := "2026-10-12T00:00:00" } ["b.pdf"]
        { store := [("a.json", PyDict.cons "name" (.pystr "") .nil)], parsedDir := [],
          reprocessedCount := 0, events := [] } "a.json" =
      { store := [("a.json", PyDict.cons "name" (.pystr "") .nil)], parsedDir := [],
        reprocessedCount := 0 + 1,
        events := [] ++
          [.warn ("Missing name in " ++ "a.json" ++ ". Reprocessing..."),
           .errorMsg ("Original file for " ++ "a.json" ++ " not found in uploaded files.")] } :=
  ⟨rfl, rfl, by decide,
   (claim_C6_missing_original_nonfatal
      { ocrParse := fun _ => .error "unused", stdInit := .ok (),
        llm := fun _ _ => .error "unused", cleanParse := fun _ => .error "unused",
        now := "2026-10-12T00:00:00" } ["b.pdf"]
      { store := [("a.json", PyDict.cons "name" (.pystr "") .nil)], parsedDir := [],
        reprocessedCount := 0, events := [] } "a.json"
      (PyDict.cons "name" (.pystr "") .nil) rfl rfl (by decide)).1⟩

/-- C10: on a record whose name is a non-empty whitespace-only string, the
name check itself raises (split() returns the empty list and indexing it
raises IndexError); the per-record handler of line 376 catches it and reports
it as a validation error, the record receives neither a repair pass (no
ocrCall, store unchanged, counter untouched) nor any flag, and validation
continues with the remaining records: here a second record with an empty name
is still selected and counted afterwards. -/
theorem claim_C10_whitespace_name_raises :
    nameCheck (some (.pystr " ")) = .error "IndexError: list index out of range"
    ∧ validate_and_reprocess_resumes
        { ocrParse := fun _ => .error "unused", stdInit := .ok (),
          llm := fun _ _ => .error "unused", cleanParse := fun _ => .error "unused",
          now := "2026-10-12T00:00:00" } []
        ["bad.json", "good.json"]
        [("bad.json", PyDict.cons "name" (.pystr " ") .nil),
         ("good.json", PyDict.cons "name" (.pystr "") .nil)] [] =
      { store := [("bad.json", PyDict.cons "name" (.pystr " ") .nil),
          ("good.json", PyDict.cons "name" (.pystr "") .nil)]
        parsedDir := []
        reprocessedCount := 1
        events := [.statusMsg "Validating standardized resumes...",
          .errorMsg "Error validating bad.json: IndexError: list index out of range",
          .warn "Missing name in good.json. Reprocessing...",
          .errorMsg "Original file for good.json not found in uploaded files.",
          .statusMsg "Reprocessed 1 resumes with missing name."] } :=
  ⟨rfl, rfl⟩

/-- Number of OCR repair parses attributed to a given standardized file in an
event trace. -/
def ocrCallCount (evs : List Event) (f : String) : Nat :=
  (evs.filter (fun e => e = Event.ocrCall f)).length

theorem ocrCallCount_append (a b : List Event) (f : String) :
    ocrCallCount (a ++ b) f = ocrCallCount a f + ocrCallCount b f := by
  simp [ocrCallCount, List.filter_append]

/-- One loop iteration of validate_and_reprocess_resumes performs at most one
OCR re-parse, and only for the file it is processing. -/
theorem validateOneFile_ocr_le (env : ValEnv) (up : List String) (st : ValState)
    (g f : String) :
    ocrCallCount (validateOneFile env up st g).events f ≤
      ocrCallCount st.events f + (if g = f then 1 else 0) := by
  by_cases hgf : g = f
  · subst hgf
    rw [if_pos rfl]
    simp only [validateOneFile]
    repeat' split
    all_goals simp [ocrCallCount, List.filter_append, List.filter_cons]
  · rw [if_neg hgf]
    simp only [validateOneFile]
    repeat' split
    all_goals simp [ocrCallCount, List.filter_append, List.filter_cons, hgf]

theorem foldl_validate_ocr_le (env : ValEnv) (up : List String) (f : String) :
    ∀ (files : List String) (st : ValState),
      ocrCallCount (List.foldl (validateOneFile env up) st files).events f ≤
        ocrCallCount st.events f + files.count f
  | [], st => by simp
  | g :: gs, st => by
      rw [List.foldl_cons]
      have h1 := foldl_validate_ocr_le env up f gs (validateOneFile env up st g)
      have h2 := validateOneFile_ocr_le env up st g f
      have h3 : (g :: gs).count f = gs.count f + (if g = f then 1 else 0) := by
        rw [List.count_cons]
        by_cases hgf : g = f
        · simp [hgf]
        · simp [hgf]
      omega

/-- C2 counterexample: a record CAN be repaired twice in one run of
validate_and_reprocess_resumes. The standardized session list is built by
appending one output path per processed file, and two uploaded files with the
same stem (a.pdf and a.docx both yield a.json) make the same path appear
twice; the loop then processes the same record twice, and when the first
repair leaves the name invalid the second iteration re-checks the freshly
written record and repairs it again. Here the store starts with a.json
invalid, the repaired record still has an empty name, and one run performs
two OCR re-extractions and two re-standardizations of the same record,
refuting "no record is ever repaired twice in a run". -/
theorem claim_C2_counterexample :
    nameCheck ((PyDict.cons "name" (.pystr "") .nil).get? "name") = .ok true
    ∧ ocrCallCount
        (validate_and_reprocess_resumes
          { ocrParse := fun _ => .ok (some (.cons "content" (.pystr "scanned text") .nil)),
            stdInit := .ok (),
            llm := fun _ _ => .ok "RAW",
            cleanParse := fun _ => .ok (.cons "name" (.pystr "") .nil),
            now := "2026-10-12T00:00:00" }
          ["a.pdf"] ["a.json", "a.json"]
          [("a.json", PyDict.cons "name" (.pystr "") .nil)] []).events "a.json" = 2
    ∧ (validate_and_reprocess_resumes
          { ocrParse := fun _ => .ok (some (.cons "content" (.pystr "scanned text") .nil)),
            stdInit := .ok (),
            llm := fun _ _ => .ok "RAW",
            cleanParse := fun _ => .ok (.cons "name" (.pystr "") .nil),
            now := "2026-10-12T00:00:00" }
          ["a.pdf"] ["a.json", "a.json"]
          [("a.json", PyDict.cons "name" (.pystr "") .nil)] []).reprocessedCount = 2 :=
  ⟨rfl, rfl, rfl⟩

/-- C2 (amended): per occurrence of a record path in the standardized session
list, one run of validate_and_reprocess_resumes performs at most one repair
pass; in particular, when a record path occurs at most once (distinct uploaded
stems), that record is repaired at most once per run. Each repair pass is one
OCR re-extraction followed by one backend re-standardization, and the
repaired result is written back as-is with no re-check of the validity
predicate in that iteration (the written record is arbitrary here). -/
theorem claim_C2_amended_single_repair_per_occurrence (env : ValEnv)
    (uploaded files : List String) (store0 parsedDir0 : List (String × PyDict)) (f : String)
    (hocc : files.count f ≤ 1)
    (st : ValState) (d parsed parsedJson : PyDict) (orig content rawResponse : String)
    (hread : fsRead st.store f = some d)
    (hcheck : nameCheck (d.get? "name") = .ok true)
    (hfind : uploaded.find? (fun u => pyStem u = pyStem f) = some orig)
    (hocr : env.ocrParse orig = .ok (some parsed))
    (hinit : env.stdInit = .ok ())
    (hcontent : contentOf parsed = .ok content)
    (hllm : env.llm content (linksOf parsed) = .ok rawResponse)
    (hclean : env.cleanParse rawResponse = .ok parsedJson) :
    ocrCallCount
      (validate_and_reprocess_resumes env uploaded files store0 parsedDir0).events f ≤ 1
    ∧ (validateOneFile env uploaded st f).events = st.events ++
        [.warn ("Missing name in " ++ f ++ ". Reprocessing..."),
         .ocrCall f, .backendCall f,
         .successMsg ("Reprocessed and standardized: " ++ f)]
    ∧ (validateOneFile env uploaded st f).store = fsWrite st.store f
        (((parsedJson.set "timestamp" (.pystr env.now)).set "source_file"
          (.pystr orig)).set "original_filename" (.pystr orig)) := by
  have hstep : validateOneFile env uploaded st f =
      { st with
        reprocessedCount := st.reprocessedCount + 1
        parsedDir := fsWrite st.parsedDir (pyStem f ++ ".json") parsed
        store := fsWrite st.store f
          (((parsedJson.set "timestamp" (.pystr env.now)).set "source_file"
            (.pystr orig)).set "original_filename" (.pystr orig))
        events := st.events ++
          [.warn ("Missing name in " ++ f ++ ". Reprocessing..."),
           .ocrCall f, .backendCall f,
           .successMsg ("Reprocessed and standardized: " ++ f)] } := by
    simp only [validateOneFile, hread, hcheck, hfind, hocr, hinit, hcontent, hllm, hclean,
      List.append_assoc, List.singleton_append, List.cons_append, List.nil_append]
  refine ⟨?_, by rw [hstep], by rw [hstep]⟩
  rw [validate_and_reprocess_resumes]
  rw [ocrCallCount_append]
  have hlast : ocrCallCount [Event.statusMsg ("Reprocessed " ++
      toString (List.foldl (validateOneFile env uploaded)
        { store := store0, parsedDir := parsedDir0, reprocessedCount := 0,
          events := [.statusMsg "Validating standardized resumes..."] } files).reprocessedCount ++
      " resumes with missing name.")] f = 0 := by
    simp [ocrCallCount]
  have hfold := foldl_validate_ocr_le env uploaded f files
    { store := store0, parsedDir := parsedDir0, reprocessedCount := 0,
      events := [.statusMsg "Validating standardized resumes..."] }
  have hinit0 : ocrCallCount
      ([.statusMsg "Validating standardized resumes..."] : List Event) f = 0 := by
    simp [ocrCallCount]
  rw [hinit0] at hfold
  omega

theorem claim_C2_witness :
    ((["b.json", "a.json"] : List String).count "a.json" ≤ 1)
    ∧ (fsRead [("a.json", PyDict.cons "name" (.pystr "") .nil)] "a.json" =
        some (PyDict.cons "name" (.pystr "") .nil))
    ∧ nameCheck ((PyDict.cons "name" (.pystr "") .nil).get? "name") = .ok true
    ∧ ((["a.pdf"] : List String).find? (fun u => pyStem u = pyStem "a.json") = some "a.pdf")
    ∧ ocrCallCount
        (validate_and_reprocess_resumes
          { ocrParse := fun _ => .ok (some (.cons "content" (.pystr "scanned text") .nil)),
            stdInit := .ok (),
            llm := fun _ _ => .ok "RAW",
            cleanParse := fun _ => .ok (.cons "name" (.pystr "Jo Smith") .nil),
            now := "2026-10-12T00:00:00" }
          ["a.pdf"] ["b.json", "a.json"]
          [("a.json", PyDict.cons "name" (.pystr "") .nil)] []).events "a.json" ≤ 1 := by
  refine ⟨by decide, rfl, rfl, rfl, ?_⟩
  exact (claim_C2_amended_single_repair_per_occurrence
    { ocrParse := fun _ => .ok (some (.cons "content" (.pystr "scanned text") .nil)),
      stdInit := .ok (),
      llm := fun _ _ => .ok "RAW",
      cleanParse := fun _ => .ok (.cons "name" (.pystr "Jo Smith") .nil),
      now := "2026-10-12T00:00:00" }
    ["a.pdf"] ["b.json", "a.json"] [("a.json", PyDict.cons "name" (.pystr "") .nil)] []
    "a.json" (by decide)
    { store := [("a.json", PyDict.cons "name" (.pystr "") .nil)], parsedDir := [],
      reprocessedCount := 0, events := [] }
    (PyDict.cons "name" (.pystr "") .nil)
    (PyDict.cons "content" (.pystr "scanned text") .nil)
    (PyDict.cons "name" (.pystr "Jo Smith") .nil)
    "a.pdf" "scanned text" "RAW"
    rfl rfl rfl rfl rfl rfl rfl rfl).1

/-- C4 counterexample: a record still invalid after its single repair pass is
written back, but it carries NO explicit validity marker. Two identical runs
that differ only in the backend result — one repair leaves name empty (still
invalid), the other yields a valid name — store records with exactly the same
key set (name, timestamp, source_file, original_filename): nothing
distinguishes the still-invalid record from a valid one, refuting the claimed
explicit validity marker. -/
theorem claim_C4_counterexample :
    fsRead (validate_and_reprocess_resumes
        { ocrParse := fun _ => .ok (some (.cons "content" (.pystr "scanned text") .nil)),
          stdInit := .ok (),
          llm := fun _ _ => .ok "RAW",
          cleanParse := fun _ => .ok (.cons "name" (.pystr "") .nil),
          now := "2026-10-12T00:00:00" }
        ["a.pdf"] ["a.json"]
        [("a.json", PyDict.cons "name" (.pystr "") .nil)] []).store "a.json" =
      some (PyDict.cons "name" (.pystr "")
        (.cons "timestamp" (.pystr "2026-10-12T00:00:00")
          (.cons "source_file" (.pystr "a.pdf")
            (.cons "original_filename" (.pystr "a.pdf") .nil))))
    ∧ nameCheck ((PyDict.cons "name" (.pystr "")
        (.cons "timestamp" (.pystr "2026-10-12T00:00:00")
          (.cons "source_file" (.pystr "a.pdf")
            (.cons "original_filename" (.pystr "a.pdf") .nil)))).get? "name") = .ok true
    ∧ fsRead (validate_and_reprocess_resumes
        { ocrParse := fun _ => .ok (some (.cons "content" (.pystr "scanned text") .nil)),
          stdInit := .ok (),
          llm := fun _ _ => .ok "RAW",
          cleanParse := fun _ => .ok (.cons "name" (.pystr "Jo Smith") .nil),
          now := "2026-10-12T00:00:00" }
        ["a.pdf"] ["a.json"]
        [("a.json", PyDict.cons "name" (.pystr "") .nil)] []).store "a.json" =
      some (PyDict.cons "name" (.pystr "Jo Smith")
        (.cons "timestamp" (.pystr "2026-10-12T00:00:00")
          (.cons "source_file" (.pystr "a.pdf")
            (.cons "original_filename" (.pystr "a.pdf") .nil))))
    ∧ nameCheck ((PyDict.cons "name" (.pystr "Jo Smith")
        (.cons "timestamp" (.pystr "2026-10-12T00:00:00")
          (.cons "source_file" (.pystr "a.pdf")
            (.cons "original_filename" (.pystr "a.pdf") .nil)))).get? "name") = .ok false
    ∧ (PyDict.cons "name" (.pystr "")
        (.cons "timestamp" (.pystr "2026-10-12T00:00:00")
          (.cons "source_file" (.pystr "a.pdf")
            (.cons "original_filename" (.pystr "a.pdf") .nil)))).keys =
      (PyDict.cons "name" (.pystr "Jo Smith")
        (.cons "timestamp" (.pystr "2026-10-12T00:00:00")
          (.cons "source_file" (.pystr "a.pdf")
            (.cons "original_filename" (.pystr "a.pdf") .nil)))).keys :=
  ⟨rfl, rfl, rfl, rfl, rfl⟩

/-- C4 (amended): a record still invalid after its single repair pass is
retained, not discarded: the repaired, stamped record is written back in
place even though it fails the validity predicate (the write is unconditional
— the still-invalid hypothesis is not consulted), and no validity marker of any kind is added: every
key of the stored record is a key of the backend output or one of the three
provenance stamps. -/
theorem claim_C4_amended_retained_unmarked (env : ValEnv) (uploaded : List String)
    (st : ValState) (fileName : String) (d parsed parsedJson : PyDict)
    (orig content rawResponse : String)
    (hread : fsRead st.store fileName = some d)
    (hcheck : nameCheck (d.get? "name") = .ok true)
    (hfind : uploaded.find? (fun u => pyStem u = pyStem fileName) = some orig)
    (hocr : env.ocrParse orig = .ok (some parsed))
    (hinit : env.stdInit = .ok ())
    (hcontent : contentOf parsed = .ok content)
    (hllm : env.llm content (linksOf parsed) = .ok rawResponse)
    (hclean : env.cleanParse rawResponse = .ok parsedJson)
    (_hstill : nameCheck ((((parsedJson.set "timestamp" (.pystr env.now)).set "source_file"
        (.pystr orig)).set "original_filename" (.pystr orig)).get? "name") = .ok true) :
    fsRead (validateOneFile env uploaded st fileName).store fileName =
      some (((parsedJson.set "timestamp" (.pystr env.now)).set "source_file"
        (.pystr orig)).set "original_filename" (.pystr orig))
    ∧ ∀ k ∈ (((parsedJson.set "timestamp" (.pystr env.now)).set "source_file"
        (.pystr orig)).set "original_filename" (.pystr orig)).keys,
        k ∈ parsedJson.keys ∨ k = "timestamp" ∨ k = "source_file"
          ∨ k = "original_filename" := by
  have hstep : (validateOneFile env uploaded st fileName).store = fsWrite st.store fileName
      (((parsedJson.set "timestamp" (.pystr env.now)).set "source_file"
        (.pystr orig)).set "original_filename" (.pystr orig)) := by
    simp only [validateOneFile, hread, hcheck, hfind, hocr, hinit, hcontent, hllm, hclean]
  constructor
  · rw [hstep]
    exact fsRead_fsWrite_self _ _ _
  · intro k hk
    rcases PyDict.mem_keys_set _ _ _ _ hk with hk1 | hk1
    · rcases PyDict.mem_keys_set _ _ _ _ hk1 with hk2 | hk2
      · rcases PyDict.mem_keys_set _ _ _ _ hk2 with hk3 | hk3
        · exact Or.inl hk3
        · exact Or.inr (Or.inl hk3)
      · exact Or.inr (Or.inr (Or.inl hk2))
    · exact Or.inr (Or.inr (Or.inr hk1))

theorem claim_C4_witness :
    (fsRead [("a.json", PyDict.cons "name" (.pystr "") .nil)] "a.json" =
        some (PyDict.cons "name" (.pystr "") .nil))
    ∧ ((["a.pdf"] : List String).find? (fun u => pyStem u = pyStem "a.json") = some "a.pdf")
    ∧ nameCheck (((((PyDict.cons "name" (.pystr "") .nil).set "timestamp"
        (.pystr "2026-10-12T00:00:00")).set "source_file"
        (.pystr "a.pdf")).set "original_filename" (.pystr "a.pdf")).get? "name") = .ok true
    ∧ fsRead (validateOneFile
        { ocrParse := fun _ => .ok (some (.cons "content" (.pystr "scanned text") .nil)),
          stdInit := .ok (),
          llm := fun _ _ => .ok "RAW",
          cleanParse := fun _ => .ok (.cons "name" (.pystr "") .nil),
          now := "2026-10-12T00:00:00" }
        ["a.pdf"]
        { store := [("a.json", PyDict.cons "name" (.pystr "") .nil)], parsedDir := [],
          reprocessedCount := 0, events := [] } "a.json").store "a.json" =
      some ((((PyDict.cons "name" (.pystr "") .nil).set "timestamp"
        (.pystr "2026-10-12T00:00:00")).set "source_file"
        (.pystr "a.pdf")).set "original_filename" (.pystr "a.pdf")) := by
  refine ⟨rfl, rfl, rfl, ?_⟩
  exact (claim_C4_amended_retained_unmarked
    { ocrParse := fun _ => .ok (some (.cons "content" (.pystr "scanned text") .nil)),
      stdInit := .ok (),
      llm := fun _ _ => .ok "RAW",
      cleanParse := fun _ => .ok (.cons "name" (.pystr "") .nil),
      now := "2026-10-12T00:00:00" }
    ["a.pdf"]
    { store := [("a.json", PyDict.cons "name" (.pystr "") .nil)], parsedDir := [],
      reprocessedCount := 0, events := [] }
    "a.json" (PyDict.cons "name" (.pystr "") .nil)
    (PyDict.cons "content" (.pystr "scanned text") .nil)
    (PyDict.cons "name" (.pystr "") .nil)
    "a.pdf" "scanned text" "RAW"
    rfl rfl rfl rfl rfl rfl rfl rfl rfl).1

/-!
Per-item error isolation lemmas for the three batch stages (claim C5).
-/

theorem processOneFile_mem_events (env : ParseEnv) (st : ParseState) (g : String)
    (e : Event) (h : e ∈ st.events) : e ∈ (processOneFile env st g).events := by
  rw [processOneFile]
  repeat' split
  all_goals simp only [List.mem_append]
  all_goals try exact Or.inl h
  all_goals exact h

theorem foldl_process_mem_events (env : ParseEnv) (e : Event) :
    ∀ (files : List String) (st : ParseState), e ∈ st.events →
      e ∈ (List.foldl (processOneFile env) st files).events
  | [], st, h => h
  | g :: gs, st, h => by
      rw [List.foldl_cons]
      exact foldl_process_mem_events env e gs _ (processOneFile_mem_events env st g e h)

theorem processOneFile_count_le (env : ParseEnv) (st : ParseState) (g : String) :
    (processOneFile env st g).processedCount ≤ st.processedCount + 1 := by
  rw [processOneFile]
  repeat' split
  all_goals simp

theorem foldl_process_count_le (env : ParseEnv) :
    ∀ (files : List String) (st : ParseState),
      (List.foldl (processOneFile env) st files).processedCount ≤
        st.processedCount + files.length
  | [], st => by simp
  | g :: gs, st => by
      rw [List.foldl_cons]
      have h1 := foldl_process_count_le env gs (processOneFile env st g)
      have h2 := processOneFile_count_le env st g
      simp only [List.length_cons]
      omega

theorem foldl_process_error_mem (env : ParseEnv) (pf pe : String)
    (hsupp : env.supported (pyLower (pySuffix pf)) = true)
    (hraise : env.parse pf = .error pe) :
    ∀ (files : List String) (st : ParseState), pf ∈ files →
      Event.errorMsg ("Error parsing " ++ pf ++ ": " ++ pe) ∈
        (List.foldl (processOneFile env) st files).events
  | [], st, h => absurd h (List.not_mem_nil pf)
  | g :: gs, st, h => by
      rw [List.foldl_cons]
      rcases List.mem_cons.mp h with rfl | hmem
      · refine foldl_process_mem_events env _ gs _ ?_
        rw [processOneFile, if_neg (by simp [hsupp]), hraise]
        simp
      · exact foldl_process_error_mem env pf pe hsupp hraise gs _ hmem

theorem uploadOneFile_mem_events (env : DbEnv) (sd : List (String × PyDict))
    (st : DbState) (g : String) (e : Event) (h : e ∈ st.events) :
    e ∈ (uploadOneFile env sd st g).events := by
  rw [uploadOneFile]
  repeat' split
  all_goals simp only [List.mem_append]
  all_goals try exact Or.inl h
  all_goals exact h

theorem foldl_upload_mem_events (env : DbEnv) (sd : List (String × PyDict)) (e : Event) :
    ∀ (files : List String) (st : DbState), e ∈ st.events →
      e ∈ (List.foldl (uploadOneFile env sd) st files).events
  | [], st, h => h
  | g :: gs, st, h => by
      rw [List.foldl_cons]
      exact foldl_upload_mem_events env sd e gs _ (uploadOneFile_mem_events env sd st g e h)

theorem uploadOneFile_count_le (env : DbEnv) (sd : List (String × PyDict))
    (st : DbState) (g : String) :
    (uploadOneFile env sd st g).uploadedCount ≤ st.uploadedCount + 1 := by
  rw [uploadOneFile]
  repeat' split
  all_goals simp

theorem foldl_upload_count_le (env : DbEnv) (sd : List (String × PyDict)) :
    ∀ (files : List String) (st : DbState),
      (List.foldl (uploadOneFile env sd) st files).uploadedCount ≤
        st.uploadedCount + files.length
  | [], st => by simp
  | g :: gs, st => by
      rw [List.foldl_cons]
      have h1 := foldl_upload_count_le env sd gs (uploadOneFile env sd st g)
      have h2 := uploadOneFile_count_le env sd st g
      simp only [List.length_cons]
      omega

theorem foldl_upload_error_mem (env : DbEnv) (sd : List (String × PyDict))
    (df de : String) (dd : PyDict)
    (hread : fsRead sd df = some dd)
    (hraise : env.upsert dd = .error de) :
    ∀ (files : List String) (st : DbState), df ∈ files →
      Event.errorMsg ("Error uploading " ++ df ++ ": " ++ de) ∈
        (List.foldl (uploadOneFile env sd) st files).events
  | [], st, h => absurd h (List.not_mem_nil df)
  | g :: gs, st, h => by
      rw [List.foldl_cons]
      rcases List.mem_cons.mp h with rfl | hmem
      · refine foldl_upload_mem_events env sd _ gs _ ?_
        simp only [uploadOneFile, hread, hraise]
        simp
      · exact foldl_upload_error_mem env sd df de dd hread hraise gs _ hmem

theorem standardizeOneFile_mem_events (env : StdEnv) (pd : List (String × PyDict))
    (st : StdState) (g : String) (e : Event) (h : e ∈ st.events) :
    e ∈ (standardizeOneFile env pd st g).events := by
  simp only [standardizeOneFile]
  repeat' split
  all_goals simp only [List.mem_append]
  all_goals try exact Or.inl (Or.inl h)
  all_goals try exact Or.inl h
  all_goals exact h

theorem foldl_standardize_mem_events (env : StdEnv) (pd : List (String × PyDict)) (e : Event) :
    ∀ (files : List String) (st : StdState), e ∈ st.events →
      e ∈ (List.foldl (standardizeOneFile env pd) st files).events
  | [], st, h => h
  | g :: gs, st, h => by
      rw [List.foldl_cons]
      exact foldl_standardize_mem_events env pd e gs _
        (standardizeOneFile_mem_events env pd st g e h)

theorem standardizeOneFile_count_le (env : StdEnv) (pd : List (String × PyDict))
    (st : StdState) (g : String) :
    (standardizeOneFile env pd st g).standardizedCount ≤ st.standardizedCount + 1 := by
  simp only [standardizeOneFile]
  repeat' split
  all_goals simp

theorem foldl_standardize_count_le (env : StdEnv) (pd : List (String × PyDict)) :
    ∀ (files : List String) (st : StdState),
      (List.foldl (standardizeOneFile env pd) st files).standardizedCount ≤
        st.standardizedCount + files.length
  | [], st => by simp
  | g :: gs, st => by
      rw [List.foldl_cons]
      have h1 := foldl_standardize_count_le env pd gs (standardizeOneFile env pd st g)
      have h2 := standardizeOneFile_count_le env pd st g
      simp only [List.length_cons]
      omega

/-- A missing standardized output for one file stays missing across the
processing of another file: each iteration only ever writes its own output. -/
theorem standardizeOneFile_preserves_absent (env : StdEnv) (pd : List (String × PyDict))
    (st : StdState) (g sf : String) (hne : ¬ g = sf)
    (habs : fsRead st.standardizedDir sf = none) :
    fsRead (standardizeOneFile env pd st g).standardizedDir sf = none := by
  simp only [standardizeOneFile]
  repeat' split
  all_goals try exact habs
  all_goals rw [fsRead_fsWrite_ne _ _ _ _ hne]
  all_goals exact habs

theorem foldl_standardize_error_mem (env : StdEnv) (pd : List (String × PyDict))
    (sf : String) (hpd : fsRead pd sf = none) :
    ∀ (files : List String) (st : StdState), sf ∈ files →
      fsRead st.standardizedDir sf = none →
      Event.errorMsg ("Error standardizing " ++ sf ++ ": FileNotFoundError") ∈
        (List.foldl (standardizeOneFile env pd) st files).events
  | [], st, h, _ => absurd h (List.not_mem_nil sf)
  | g :: gs, st, h, habs => by
      rw [List.foldl_cons]
      by_cases hg : g = sf
      · subst hg
        refine foldl_standardize_mem_events env pd _ gs _ ?_
        simp only [standardizeOneFile, habs, hpd, Option.isSome_none]
        simp
      · rcases List.mem_cons.mp h with rfl | hmem
        · exact absurd rfl hg
        · exact foldl_standardize_error_mem env pd sf hpd gs _ hmem
            (standardizeOneFile_preserves_absent env pd st g sf hg habs)

/-- Each parse-stage iteration either counts its file as processed or reports
a warning or error naming that file: no file is dropped silently. -/
theorem processOneFile_total (env : ParseEnv) (st : ParseState) (g : String) :
    (processOneFile env st g).processedCount = st.processedCount + 1
    ∨ processOneFile env st g = { st with events := st.events ++
        [.warn ("Skipping " ++ g ++ ": Unsupported file type " ++ pyLower (pySuffix g))] }
    ∨ (∃ e, processOneFile env st g = { st with events := st.events ++
        [.errorMsg ("Error parsing " ++ g ++ ": " ++ e)] })
    ∨ processOneFile env st g = { st with events := st.events ++
        [.warn ("No content extracted from " ++ g)] } := by
  rw [processOneFile]
  repeat' split
  all_goals first
    | exact Or.inl rfl
    | exact Or.inr (Or.inl rfl)
    | exact Or.inr (Or.inr (Or.inl ⟨_, rfl⟩))
    | exact Or.inr (Or.inr (Or.inr rfl))

/-- Each standardize-stage iteration either counts its file (existing output
reused, or fresh output written) or reports a warning or error naming it. -/
theorem standardizeOneFile_total (env : StdEnv) (pd : List (String × PyDict))
    (st : StdState) (g : String) :
    (standardizeOneFile env pd st g).standardizedCount = st.standardizedCount + 1
    ∨ standardizeOneFile env pd st g = { st with events := st.events ++
        [.errorMsg ("Error standardizing " ++ g ++ ": FileNotFoundError")] }
    ∨ (∃ e, standardizeOneFile env pd st g = { st with events := st.events ++
        [.errorMsg ("Error standardizing " ++ g ++ ": " ++ e)] })
    ∨ standardizeOneFile env pd st g = { st with events := st.events ++
        [.warn ("Empty content in " ++ g ++ ", skipping.")] }
    ∨ (∃ e, standardizeOneFile env pd st g = { st with events := st.events ++
        [.backendCall g, .errorMsg ("Error standardizing " ++ g ++ ": " ++ e)] })
    ∨ (∃ e r, standardizeOneFile env pd st g = { st with
        rawLogs := fsWrite st.rawLogs (pyStem g ++ "_raw.md") r,
        events := st.events ++
          [.backendCall g, .errorMsg ("Error standardizing " ++ g ++ ": " ++ e)] }) := by
  simp only [standardizeOneFile]
  split
  · exact Or.inl rfl
  · split
    · exact Or.inr (Or.inl rfl)
    · split
      · rename_i e heq
        exact Or.inr (Or.inr (Or.inl ⟨e, rfl⟩))
      · split
        · exact Or.inr (Or.inr (Or.inr (Or.inl rfl)))
        · split
          · rename_i e heq
            exact Or.inr (Or.inr (Or.inr (Or.inr (Or.inl ⟨e, by simp⟩))))
          · rename_i r heqr
            split
            · rename_i e heq
              exact Or.inr (Or.inr (Or.inr (Or.inr (Or.inr ⟨e, r, by simp⟩))))
            · exact Or.inl rfl

/-- Each upload-stage iteration either counts its file as uploaded or reports
an error naming it. -/
theorem uploadOneFile_total (env : DbEnv) (sd : List (String × PyDict))
    (st : DbState) (g : String) :
    (uploadOneFile env sd st g).uploadedCount = st.uploadedCount + 1
    ∨ uploadOneFile env sd st g = { st with events := st.events ++
        [.errorMsg ("Error uploading " ++ g ++ ": FileNotFoundError")] }
    ∨ (∃ e, uploadOneFile env sd st g = { st with events := st.events ++
        [.errorMsg ("Error uploading " ++ g ++ ": " ++ e)] }) := by
  rw [uploadOneFile]
  repeat' split
  all_goals first
    | exact Or.inl rfl
    | exact Or.inr (Or.inl rfl)
    | exact Or.inr (Or.inr ⟨_, rfl⟩)

/-- C5: in every batch stage (parsing, standardization, database upload) an
exception raised while processing one item is caught at the per-item boundary
and reported with that item name, the remaining items are still processed
(the reported summary counts all attempted items), and the stage ends by
reporting a succeeded/attempted count; each iteration either counts its item
as succeeded or reports a warning or error naming it, so no item fails
silently. The per-stage exception witnesses here: a parser exception, a
missing parsed file (the open/json.load of the item raises), and a store
upsert exception. -/
theorem claim_C5_per_item_error_isolation
    (penv : ParseEnv) (pfiles : List String) (pf pe : String)
    (hpmem : pf ∈ pfiles)
    (hpsupp : penv.supported (pyLower (pySuffix pf)) = true)
    (hpraise : penv.parse pf = .error pe)
    (senv : StdEnv) (spd ssd0 : List (String × PyDict)) (sfiles : List String) (sf : String)
    (hsmem : sf ∈ sfiles)
    (hsdir : fsRead ssd0 sf = none)
    (hspd : fsRead spd sf = none)
    (hsinit : senv.initOk = true)
    (denv : DbEnv) (dsd : List (String × PyDict)) (dfiles : List String)
    (df de : String) (dd : PyDict)
    (hdmem : df ∈ dfiles)
    (hdread : fsRead dsd df = some dd)
    (hdraise : denv.upsert dd = .error de)
    (hdconn : denv.connectOk = true) :
    Event.errorMsg ("Error parsing " ++ pf ++ ": " ++ pe) ∈
        (process_uploaded_files penv pfiles).events
    ∧ (∃ c, c ≤ pfiles.length ∧ (process_uploaded_files penv pfiles).events.getLast? =
        some (.statusMsg ("Processed " ++ toString c ++ "/" ++
          toString pfiles.length ++ " files")))
    ∧ Event.errorMsg ("Error standardizing " ++ sf ++ ": FileNotFoundError") ∈
        (standardize_resumes senv spd sfiles ssd0).events
    ∧ (∃ c, c ≤ sfiles.length ∧ (standardize_resumes senv spd sfiles ssd0).events.getLast? =
        some (.statusMsg ("Standardized " ++ toString c ++ "/" ++
          toString sfiles.length ++ " files")))
    ∧ Event.errorMsg ("Error uploading " ++ df ++ ": " ++ de) ∈
        (upload_to_mongodb denv dsd dfiles).events
    ∧ (∃ c, c ≤ dfiles.length ∧ (upload_to_mongodb denv dsd dfiles).events.getLast? =
        some (.statusMsg ("Uploaded " ++ toString c ++ "/" ++
          toString dfiles.length ++ " resumes to MongoDB")))
    ∧ (∀ (st : ParseState) (g : String),
        (processOneFile penv st g).processedCount = st.processedCount + 1
        ∨ processOneFile penv st g = { st with events := st.events ++
            [.warn ("Skipping " ++ g ++ ": Unsupported file type " ++ pyLower (pySuffix g))] }
        ∨ (∃ e, processOneFile penv st g = { st with events := st.events ++
            [.errorMsg ("Error parsing " ++ g ++ ": " ++ e)] })
        ∨ processOneFile penv st g = { st with events := st.events ++
            [.warn ("No content extracted from " ++ g)] })
    ∧ (∀ (st : StdState) (g : String),
        (standardizeOneFile senv spd st g).standardizedCount = st.standardizedCount + 1
        ∨ standardizeOneFile senv spd st g = { st with events := st.events ++
            [.errorMsg ("Error standardizing " ++ g ++ ": FileNotFoundError")] }
        ∨ (∃ e, standardizeOneFile senv spd st g = { st with events := st.events ++
            [.errorMsg ("Error standardizing " ++ g ++ ": " ++ e)] })
        ∨ standardizeOneFile senv spd st g = { st with events := st.events ++
            [.warn ("Empty content in " ++ g ++ ", skipping.")] }
        ∨ (∃ e, standardizeOneFile senv spd st g = { st with events := st.events ++
            [.backendCall g, .errorMsg ("Error standardizing " ++ g ++ ": " ++ e)] })
        ∨ (∃ e r, standardizeOneFile senv spd st g = { st with
            rawLogs := fsWrite st.rawLogs (pyStem g ++ "_raw.md") r,
            events := st.events ++
              [.backendCall g, .errorMsg ("Error standardizing " ++ g ++ ": " ++ e)] }))
    ∧ (∀ (st : DbState) (g : String),
        (uploadOneFile denv dsd st g).uploadedCount = st.uploadedCount + 1
        ∨ uploadOneFile denv dsd st g = { st with events := st.events ++
            [.errorMsg ("Error uploading " ++ g ++ ": FileNotFoundError")] }
        ∨ (∃ e, uploadOneFile denv dsd st g = { st with events := st.events ++
            [.errorMsg ("Error uploading " ++ g ++ ": " ++ e)] })) := by
  have hguardS : (!senv.initOk) = false := by rw [hsinit]; rfl
  have hguardD : (!denv.connectOk) = false := by rw [hdconn]; rfl
  refine ⟨?_, ?_, ?_, ?_, ?_, ?_, fun st g => processOneFile_total penv st g,
    fun st g => standardizeOneFile_total senv spd st g,
    fun st g => uploadOneFile_total denv dsd st g⟩
  · simp only [process_uploaded_files, List.mem_append]
    exact Or.inl (foldl_process_error_mem penv pf pe hpsupp hpraise pfiles _ hpmem)
  · simp only [process_uploaded_files]
    refine ⟨_, ?_, List.getLast?_concat _⟩
    have := foldl_process_count_le penv pfiles
      { parsedDir := [], processedFiles := [], processedCount := 0,
        events := [.statusMsg ("Processing " ++ toString pfiles.length ++ " files...")] }
    simpa using this
  · simp only [standardize_resumes, hguardS, Bool.false_eq_true, if_false, List.mem_append]
    exact Or.inl (foldl_standardize_error_mem senv spd sf hspd sfiles _ hsmem hsdir)
  · simp only [standardize_resumes, hguardS, Bool.false_eq_true, if_false]
    refine ⟨_, ?_, List.getLast?_concat _⟩
    have := foldl_standardize_count_le senv spd sfiles
      { standardizedDir := ssd0, rawLogs := [], standardizedFiles := [],
        standardizedCount := 0,
        events := [.statusMsg ("Standardizing " ++ toString sfiles.length ++ " files...")] }
    simpa using this
  · simp only [upload_to_mongodb, hguardD, Bool.false_eq_true, if_false, List.mem_append]
    exact Or.inl (foldl_upload_error_mem denv dsd df de dd hdread hdraise dfiles _ hdmem)
  · simp only [upload_to_mongodb, hguardD, Bool.false_eq_true, if_false]
    refine ⟨_, ?_, List.getLast?_concat _⟩
    have := foldl_upload_count_le denv dsd dfiles
      { uploadedFiles := [], uploadedCount := 0, events := [] }
    simpa using this

theorem claim_C5_witness :
    (("bad.pdf" : String) ∈ (["bad.pdf"] : List String))
    ∧ ((fun e => e == ".pdf") (pyLower (pySuffix "bad.pdf")) = true)
    ∧ ((fun n : String => if n == "bad.pdf" then (Except.error "boom" :
          Except String (Option PyDict)) else .ok none) "bad.pdf" = .error "boom")
    ∧ Event.errorMsg ("Error parsing " ++ "bad.pdf" ++ ": " ++ "boom") ∈
        (process_uploaded_files
          { supported := fun e => e == ".pdf",
            parse := fun n => if n == "bad.pdf" then .error "boom" else .ok none,
            now := "2026-10-12T00:00:00" } ["bad.pdf"]).events
    ∧ Event.errorMsg ("Error standardizing " ++ "a.json" ++ ": FileNotFoundError") ∈
        (standardize_resumes
          { llm := fun _ _ => .ok "RAW", cleanParse := fun _ => .ok .nil,
            initOk := true, now := "2026-10-12T00:00:00" } [] ["a.json"] []).events
    ∧ Event.errorMsg ("Error uploading " ++ "c.json" ++ ": " ++ "down") ∈
        (upload_to_mongodb
          { connectOk := true, upsert := fun _ => .error "down" }
          [("c.json", PyDict.nil)] ["c.json"]).events
    ∧ (process_uploaded_files
        { supported := fun e => e == ".pdf",
          parse := fun n => if n == "bad.pdf" then .error "boom" else .ok none,
          now := "2026-10-12T00:00:00" } ["bad.pdf"]).events.getLast? =
      some (.statusMsg "Processed 0/1 files") := by
  have h := claim_C5_per_item_error_isolation
    { supported := fun e => e == ".pdf",
      parse := fun n => if n == "bad.pdf" then .error "boom" else .ok none,
      now := "2026-10-12T00:00:00" } ["bad.pdf"] "bad.pdf" "boom"
    (by decide) rfl rfl
    { llm := fun _ _ => .ok "RAW", cleanParse := fun _ => .ok .nil,
      initOk := true, now := "2026-10-12T00:00:00" } [] [] ["a.json"] "a.json"
    (by decide) rfl rfl rfl
    { connectOk := true, upsert := fun _ => .error "down" }
    [("c.json", PyDict.nil)] ["c.json"] "c.json" "down" PyDict.nil
    (by decide) rfl rfl rfl
  exact ⟨by decide, rfl, rfl, h.1, h.2.2.1, h.2.2.2.2.1, rfl⟩

end HRBot
